import Mathlib

/-
  Shallow embedding of the CustomVPN Windows client (Go sources) for
  specification checking.  Each definition mirrors one Go function or type:

  * string helpers mirror the Go standard-library calls the client uses
    (strings.TrimSpace, strings.Contains, strings.ToLower);
  * `sanitizeFileName` mirrors client/internal/app/operations.go;
  * `ProfileDTO.Validate` mirrors the controlclient DTO validation;
  * `routeManagerRemoveRoute` mirrors routes.Manager.RemoveRoute, with
    route.exe abstracted: a returned argument list means the DELETE
    command is attempted with exactly those arguments;
  * `launcherStop` mirrors process.Launcher.Stop with the OS process
    abstracted by two oracles (does it exit before the timeout, does
    Kill succeed);
  * the event-bus definitions mirror state.Machine's two bounded
    channels and its consumer loop;
  * the FSM handler definitions mirror state.Machine's per-state
    handlers (wall-clock timestamps are not modelled);
  * the preflight and connect-scenario definitions mirror
    Application.startPreflight / startConnecting, with every platform
    effector call resolved by an explicit environment (oracle) and
    recorded in a trace.
-/

/-- Character class of Go unicode.IsSpace restricted to its Latin-1 rows;
the client only ever trims ASCII input. -/
def isGoSpace (c : Char) : Bool :=
  c = ' ' || c = '\t' || c = '\n' || c = '\u000B' || c = '\u000C' || c = '\r' ||
  c = '\u0085' || c = '\u00A0'

/-- Embedding of Go strings.TrimSpace: drop leading and trailing whitespace. -/
def goTrimSpace (s : String) : String :=
  String.mk (((s.data.dropWhile isGoSpace).reverse.dropWhile isGoSpace).reverse)

/-- Helper for `strContains`: does `needle` occur inside the character list? -/
def charsContains (needle : List Char) : List Char → Bool
  | [] => needle.isEmpty
  | c :: rest => needle.isPrefixOf (c :: rest) || charsContains needle rest

/-- Embedding of Go strings.Contains. -/
def strContains (hay needle : String) : Bool :=
  charsContains needle.data hay.data

/-- Test for the byte ranges a-z, A-Z, 0-9 used by sanitizeFileName
(97..122, 65..90, 48..57 are the code points of those ranges). -/
def isAsciiAlnum (c : Char) : Bool :=
  (97 ≤ c.toNat && c.toNat ≤ 122) || (65 ≤ c.toNat && c.toNat ≤ 90) ||
  (48 ≤ c.toNat && c.toNat ≤ 57)

/-- Embedding of sanitizeFileName (client/internal/app/operations.go):
trim the name, fall back to the trimmed id, then to "core-config", and map
every rune of the chosen base through the keep-alnum-else-underscore filter. -/
def sanitizeFileName (name fallback : String) : String :=
  let base := goTrimSpace name
  let base := if base = "" then goTrimSpace fallback else base
  let base := if base = "" then "core-config" else base
  String.mk (base.data.map (fun c => if isAsciiAlnum c then c else '_'))

/-- Embedding of state.Profile (unified model, client/internal/state):
core_config is kept as an opaque byte-string. -/
structure ProfileM where
  id : String
  name : String
  country : String
  host : String
  port : Int
  coreConfigRaw : String
  directRoutes : List String
  tunnelRoutes : List String
  killSwitchEnabled : Bool
  deriving DecidableEq

/-- Embedding of controlclient.normalizeCIDRs: trim each entry and drop
the empty ones. -/
def normalizeCIDRs (values : List String) : List String :=
  (values.map goTrimSpace).filter (fun v => v ≠ "")

/-- Embedding of controlclient.ProfileDTO, the /profiles response shape. -/
structure ProfileDTO where
  id : String
  name : String
  country : String
  host : String
  port : Int
  coreConfig : String
  directRoutes : List String
  tunnelRoutes : List String
  killSwitch : Bool
  deriving DecidableEq

/-- Embedding of ProfileDTO.Validate (controlclient): non-empty id, name,
host, port within 1..65535, then the DTO is converted to a state.Profile. -/
def ProfileDTO.Validate (dto : ProfileDTO) : Except String ProfileM :=
  if dto.id = "" then
    Except.error "profile id is empty"
  else if dto.name = "" then
    Except.error ("profile " ++ dto.id ++ ": name is empty")
  else if dto.host = "" then
    Except.error ("profile " ++ dto.id ++ ": host is empty")
  else if dto.port ≤ 0 || 65535 < dto.port then
    Except.error ("profile " ++ dto.id ++ ": invalid port " ++ toString dto.port)
  else
    Except.ok
      { id := dto.id
        name := dto.name
        country := dto.country
        host := dto.host
        port := dto.port
        coreConfigRaw := dto.coreConfig
        directRoutes := normalizeCIDRs dto.directRoutes
        tunnelRoutes := normalizeCIDRs dto.tunnelRoutes
        killSwitchEnabled := dto.killSwitch }

/-- Embedding of state.RouteRecord; Kind is the Go string type RouteKind
and CreatedAt / Active carry no information the claims need beyond the
Active flag. -/
structure RouteRecord where
  id : String
  destination : String
  gateway : String
  interfaceIndex : Int
  metric : Int
  kind : String
  active : Bool
  deriving DecidableEq

/-- Embedding of routes.Manager.RemoveRoute (route.exe DELETE).  The
`maskOfCidr` parameter abstracts net.ParseCIDR plus maskToIPv4String: it
returns the dotted-decimal mask when the destination parses as an IPv4
CIDR.  A returned `Except.ok args` means runRouteCommand is invoked with
exactly `args`; `Except.error` means the function returns before any
command is issued. -/
def routeManagerRemoveRoute (maskOfCidr : String → Option String)
    (record : RouteRecord) : Except String (List String) :=
  if record.destination = "" then
    Except.error "route destination is empty"
  else if (record.destination = "0.0.0.0" || record.destination = "0.0.0.0/0") &&
      record.gateway = "" then
    Except.error "refusing to delete default route without gateway"
  else
    let destination := String.mk (record.destination.data.takeWhile (fun c => c ≠ '/'))
    let args := ["DELETE", destination]
    let args :=
      match maskOfCidr record.destination with
      | some mask => args ++ ["MASK", mask]
      | none => args
    let args := if record.gateway ≠ "" then args ++ [record.gateway] else args
    let args :=
      if 0 < record.interfaceIndex then args ++ ["IF", toString record.interfaceIndex]
      else args
    Except.ok args

/-- Observable actions of process.Launcher.Stop. -/
inductive StopAction
  | interrupt
  | timedOutKill (afterSec : Int)
  | waitedExit
  deriving DecidableEq

/-- Embedding of process.Launcher.Stop.  `procs` is the set of names with
a live handle in l.procs (Start always stores a non-nil cmd and process,
so the nil-handle guards in the source collapse to the membership test).
`exitsBeforeTimeout` and `killOk` are oracles for the child process.
The result pairs Go's returned error with the trace of actions taken. -/
def launcherStop (procs : List String) (name : String) (timeoutSec : Int)
    (exitsBeforeTimeout killOk : Bool) : Option String × List StopAction :=
  if procs.contains name then
    let t := if timeoutSec ≤ 0 then 5 else timeoutSec
    if exitsBeforeTimeout then (none, [StopAction.interrupt, StopAction.waitedExit])
    else if killOk then
      (none, [StopAction.interrupt, StopAction.timedOutKill t, StopAction.waitedExit])
    else (some "kill failed", [StopAction.interrupt, StopAction.timedOutKill t])
  else (none, [])

/-- Constants of the Go string type state.State. -/
def stateAppStarting : String := "AppStarting"

/-- PreflightCheck state constant. -/
def statePreflightCheck : String := "PreflightCheck"

/-- WaitingLogin state constant. -/
def stateWaitingLogin : String := "WaitingLogin"

/-- AuthInProgress state constant. -/
def stateAuthInProgress : String := "AuthInProgress"

/-- SyncInProgress state constant. -/
def stateSyncInProgress : String := "SyncInProgress"

/-- PreparingEnvironment state constant. -/
def statePreparingEnv : String := "PreparingEnvironment"

/-- ReadyDisconnected state constant. -/
def stateReadyDisconnected : String := "ReadyDisconnected"

/-- Connecting state constant. -/
def stateConnecting : String := "Connecting"

/-- Connected state constant. -/
def stateConnected : String := "Connected"

/-- Disconnecting state constant. -/
def stateDisconnecting : String := "Disconnecting"

/-- Error state constant. -/
def stateError : String := "Error"

/-- Exiting state constant. -/
def stateExiting : String := "Exiting"

/-- ErrorKind constant NetworkUnavailable (Go string type state.ErrorKind). -/
def errorKindNetworkUnavailable : String := "NetworkUnavailable"

/-- ErrorKind constant AuthFailed. -/
def errorKindAuthFailed : String := "AuthFailed"

/-- ErrorKind constant SyncFailed. -/
def errorKindSyncFailed : String := "SyncFailed"

/-- ErrorKind constant RoutingFailed. -/
def errorKindRoutingFailed : String := "RoutingFailed"

/-- ErrorKind constant ProcessFailed. -/
def errorKindProcessFailed : String := "ProcessFailed"

/-- ErrorKind constant ConfigFailed. -/
def errorKindConfigFailed : String := "ConfigFailed"

/-- ErrorKind constant Unknown. -/
def errorKindUnknown : String := "Unknown"

/-- EventType constant UI_LAUNCH (Go string type state.EventType). -/
def eventUILaunch : String := "UI_LAUNCH"

/-- EventType constant UI_CREDENTIALS_CHANGED. -/
def eventUICredentialsChanged : String := "UI_CREDENTIALS_CHANGED"

/-- EventType constant UI_CLICK_LOGIN. -/
def eventUIClickLogin : String := "UI_CLICK_LOGIN"

/-- EventType constant UI_CLICK_RETRY_PREFLIGHT. -/
def eventUIClickRetryPreflight : String := "UI_CLICK_RETRY_PREFLIGHT"

/-- EventType constant UI_SELECT_PROFILE. -/
def eventUISelectProfile : String := "UI_SELECT_PROFILE"

/-- EventType constant UI_CLICK_CONNECT. -/
def eventUIClickConnect : String := "UI_CLICK_CONNECT"

/-- EventType constant UI_CLICK_DISCONNECT. -/
def eventUIClickDisconnect : String := "UI_CLICK_DISCONNECT"

/-- EventType constant UI_CLICK_CLEANUP. -/
def eventUIClickCleanup : String := "UI_CLICK_CLEANUP"

/-- EventType constant UI_OPEN_SETTINGS. -/
def eventUIOpenSettings : String := "UI_OPEN_SETTINGS"

/-- EventType constant UI_CLOSE_WINDOW. -/
def eventUICloseWindow : String := "UI_CLOSE_WINDOW"

/-- EventType constant UI_SHOW_WINDOW. -/
def eventUIShowWindow : String := "UI_SHOW_WINDOW"

/-- EventType constant UI_EXIT. -/
def eventUIExit : String := "UI_EXIT"

/-- EventType constant TRAY_SHOW_WINDOW. -/
def eventTrayShowWindow : String := "TRAY_SHOW_WINDOW"

/-- EventType constant TRAY_HIDE_WINDOW. -/
def eventTrayHideWindow : String := "TRAY_HIDE_WINDOW"

/-- EventType constant TRAY_CONNECT. -/
def eventTrayConnect : String := "TRAY_CONNECT"

/-- EventType constant TRAY_DISCONNECT. -/
def eventTrayDisconnect : String := "TRAY_DISCONNECT"

/-- EventType constant TRAY_EXIT. -/
def eventTrayExit : String := "TRAY_EXIT"

/-- EventType constant SYS_PREFLIGHT_SUCCESS. -/
def eventSysPreflightSuccess : String := "SYS_PREFLIGHT_SUCCESS"

/-- EventType constant SYS_PREFLIGHT_FAILURE. -/
def eventSysPreflightFailure : String := "SYS_PREFLIGHT_FAILURE"

/-- EventType constant SYS_PREFLIGHT_RETRY. -/
def eventSysPreflightRetry : String := "SYS_PREFLIGHT_RETRY"

/-- EventType constant SYS_AUTH_SUCCESS. -/
def eventSysAuthSuccess : String := "SYS_AUTH_SUCCESS"

/-- EventType constant SYS_AUTH_FAILURE. -/
def eventSysAuthFailure : String := "SYS_AUTH_FAILURE"

/-- EventType constant SYS_SYNC_SUCCESS. -/
def eventSysSyncSuccess : String := "SYS_SYNC_SUCCESS"

/-- EventType constant SYS_SYNC_FAILURE. -/
def eventSysSyncFailure : String := "SYS_SYNC_FAILURE"

/-- EventType constant SYS_PREPARE_ENV_SUCCESS. -/
def eventSysPrepareEnvSuccess : String := "SYS_PREPARE_ENV_SUCCESS"

/-- EventType constant SYS_PREPARE_ENV_FAILURE. -/
def eventSysPrepareEnvFailure : String := "SYS_PREPARE_ENV_FAILURE"

/-- EventType constant SYS_CONNECTING_SUCCESS. -/
def eventSysConnectingSuccess : String := "SYS_CONNECTING_SUCCESS"

/-- EventType constant SYS_CONNECTING_FAILURE. -/
def eventSysConnectingFailure : String := "SYS_CONNECTING_FAILURE"

/-- EventType constant SYS_DISCONNECTING_DONE. -/
def eventSysDisconnectingDone : String := "SYS_DISCONNECTING_DONE"

/-- EventType constant SYS_PROCESS_EXITED. -/
def eventSysProcessExited : String := "SYS_PROCESS_EXITED"

/-- EventType constant SYS_CLEANUP_DONE. -/
def eventSysCleanupDone : String := "SYS_CLEANUP_DONE"

/-- EventType constant SYS_TIMEOUT. -/
def eventSysTimeout : String := "SYS_TIMEOUT"

/-- Typed event payloads of state.Event (the Go field is `any`; a failed
type assertion with the `, ok` form yields the zero value exactly as the
source handlers do). -/
inductive EvPayload
  | noPayload
  | credentials (login password : String)
  | selection (id : String)
  | authSuccess (token : String)
  | scenarioResult (kind message technicalMessage : String)
  | processExit (name : String) (exitCode : Int) (reason : String)
  | cleanupResult (errors : List String)
  | timeoutOp (operation : String)
  deriving DecidableEq

/-- Embedding of state.Event (the TS timestamp is not modelled). -/
structure Ev where
  type : String
  payload : EvPayload
  deriving DecidableEq

/-- Capacity of the normal events channel created by NewMachine. -/
def eventsChanCapacity : Nat := 64

/-- Capacity of the priority channel created by NewMachine. -/
def priorityChanCapacity : Nat := 8

/-- Embedding of Machine.isExitEvent. -/
def isExitEvent (t : String) : Bool :=
  t = eventTrayExit || t = eventUIExit

/-- Queue identifiers of the machine's two channels. -/
inductive QueueId
  | priorityQ
  | normalQ
  deriving DecidableEq

/-- Channel selection of Machine.Dispatch: exit events go to the priority
channel, everything else to the normal events channel. -/
def dispatchTarget (t : String) : QueueId :=
  if isExitEvent t then QueueId.priorityQ else QueueId.normalQ

/-- One iteration of Machine.loop over queue snapshots: the non-blocking
first select drains the priority channel when it has an event; only when
the priority channel is empty does the second select take an event from
the normal channel (between the two selects no producer runs in this
per-iteration snapshot model).  `none` means both queues are empty and
the iteration blocks waiting for an event. -/
def machineLoopPick (priorityQ normalQ : List Ev) :
    Option (Ev × List Ev × List Ev) :=
  match priorityQ with
  | e :: rest => some (e, rest, normalQ)
  | [] =>
    match normalQ with
    | e :: rest => some (e, [], rest)
    | [] => none

/-- Embedding of state.ErrorInfo (OccurredAt wall-clock time dropped). -/
structure ErrorInfoM where
  kind : String
  userMessage : String
  technicalMessage : String
  deriving DecidableEq

/-- Embedding of the state.UIState fields the state machine reads or
writes. -/
structure UIStateM where
  isLoginVisible : Bool
  isMainVisible : Bool
  isConnecting : Bool
  isConnected : Bool
  selectedProfileID : String
  statusText : String
  loginInput : String
  passwordInput : String
  canLogin : Bool
  allowPreflightRetry : Bool
  deriving DecidableEq

/-- Embedding of the Machine-side mutable data the handlers touch:
AppContext.State, LastError, SelectedProfileID and UI, plus the machine's
pendingPF flag. -/
structure MachineCtx where
  state : String
  pendingPF : Bool
  lastError : Option ErrorInfoM
  selectedProfileID : String
  ui : UIStateM
  deriving DecidableEq

/-- Side effects a handler requests through the Callbacks struct or the
logger; scenario starts are fire-and-forget goroutines in the source. -/
inductive MCall
  | updateUI
  | showModalError (kind userMessage technicalMessage : String)
  | showTransient (message : String)
  | startAuth (login password : String)
  | startDisconnecting
  | startConnecting
  | showLogin
  | showMain
  | hideMain
  | debugLog (message : String)
  deriving DecidableEq

/-- Embedding of Machine.updateUIForState: reset CanLogin and
AllowPreflightRetry, adjust visibility flags per target state, then
refreshUI (one UpdateUI callback). -/
def updateUIForState (m : MachineCtx) (st : String) : MachineCtx × List MCall :=
  let ui := { m.ui with canLogin := false, allowPreflightRetry := false }
  let ui :=
    if st = stateWaitingLogin then
      { ui with isLoginVisible := true, isMainVisible := false, canLogin := true }
    else if st = stateReadyDisconnected then
      { ui with isLoginVisible := false, isMainVisible := true,
                isConnecting := false, isConnected := false }
    else if st = stateConnecting then { ui with isConnecting := true }
    else if st = stateConnected then { ui with isConnecting := false, isConnected := true }
    else if st = stateDisconnecting then { ui with isConnecting := false }
    else if st = stateError then
      let ui := { ui with isConnecting := false }
      if m.lastError.isSome then { ui with canLogin := true } else ui
    else ui
  ({ m with ui := ui }, [MCall.updateUI])

/-- Embedding of Machine.transition: a self-transition is a no-op,
otherwise the state changes and the UI is recomputed. -/
def mTransition (m : MachineCtx) (next : String) : MachineCtx × List MCall :=
  if m.state = next then (m, [])
  else updateUIForState { m with state := next } next

/-- Embedding of Machine.enterError: record LastError, set the status
text, transition to Error and surface a modal dialog. -/
def mEnterError (m : MachineCtx) (kind userMessage technical : String) :
    MachineCtx × List MCall :=
  let m := { m with lastError := some ⟨kind, userMessage, technical⟩,
                    ui := { m.ui with statusText := userMessage } }
  let p := mTransition m stateError
  (p.1, p.2 ++ [MCall.showModalError kind userMessage technical])

/-- Embedding of Machine.applyCredentials: only a CredentialsPayload
updates the login and password inputs. -/
def mApplyCredentials (m : MachineCtx) (e : Ev) : MachineCtx :=
  match e.payload with
  | EvPayload.credentials l p =>
    { m with ui := { m.ui with loginInput := l, passwordInput := p } }
  | _ => m

/-- Embedding of Machine.applyProfileSelection: only a SelectionPayload
updates the selected profile id and refreshes the UI. -/
def mApplyProfileSelection (m : MachineCtx) (e : Ev) : MachineCtx × List MCall :=
  match e.payload with
  | EvPayload.selection id =>
    ({ m with selectedProfileID := id,
              ui := { m.ui with selectedProfileID := id } }, [MCall.updateUI])
  | _ => (m, [])

/-- Reason carried by a ProcessExitPayload; the zero value on a failed
type assertion, as in the source. -/
def payloadExitReason : EvPayload → String
  | EvPayload.processExit _ _ reason => reason
  | _ => ""

/-- Operation carried by a TimeoutPayload; the zero value on a failed
type assertion. -/
def payloadTimeoutOperation : EvPayload → String
  | EvPayload.timeoutOp op => op
  | _ => ""

/-- Embedding of Machine.handleWaitingLogin. -/
def handleWaitingLogin (m : MachineCtx) (e : Ev) : MachineCtx × List MCall :=
  if e.type = eventUICredentialsChanged then (mApplyCredentials m e, [])
  else if e.type = eventUIClickLogin then
    let m := mApplyCredentials m e
    if goTrimSpace m.ui.loginInput = "" || goTrimSpace m.ui.passwordInput = "" then
      (m, [MCall.showTransient "Укажите логин и пароль"])
    else
      let m := { m with ui := { m.ui with statusText := "Выполняется авторизация" } }
      let p := mTransition m stateAuthInProgress
      (p.1, p.2 ++ [MCall.startAuth p.1.ui.loginInput p.1.ui.passwordInput])
  else if e.type = eventUICloseWindow then (m, [MCall.hideMain])
  else if e.type = eventUIShowWindow || e.type = eventTrayShowWindow then
    (m, [MCall.showLogin])
  else (m, [MCall.debugLog ("waitingLogin: ignored " ++ e.type)])

/-- Embedding of Machine.handleConnected. -/
def handleConnected (m : MachineCtx) (e : Ev) : MachineCtx × List MCall :=
  if e.type = eventUISelectProfile then mApplyProfileSelection m e
  else if e.type = eventUIClickDisconnect || e.type = eventTrayDisconnect then
    let m := { m with pendingPF := false,
                      ui := { m.ui with statusText := "Отключение..." } }
    let p := mTransition m stateDisconnecting
    (p.1, p.2 ++ [MCall.startDisconnecting])
  else if e.type = eventSysProcessExited then
    let reason := payloadExitReason e.payload
    let m := { m with pendingPF := true,
                      ui := { m.ui with statusText := "Отключение..." } }
    let p := mTransition m stateDisconnecting
    let info : ErrorInfoM := ⟨errorKindProcessFailed, "Процесс завершился неожиданно", reason⟩
    let m := { p.1 with lastError := some info }
    (m, p.2 ++ [MCall.startDisconnecting])
  else if e.type = eventSysTimeout then
    mEnterError m errorKindUnknown
      ("Таймаут операции " ++ payloadTimeoutOperation e.payload) "timeout in connected"
  else (m, [MCall.debugLog ("connected: ignored " ++ e.type)])

/-- Embedding of Machine.handleDisconnecting. -/
def handleDisconnecting (m : MachineCtx) (e : Ev) : MachineCtx × List MCall :=
  if e.type = eventUISelectProfile then mApplyProfileSelection m e
  else if e.type = eventSysDisconnectingDone then
    let m := { m with ui := { m.ui with statusText := "Отключено" } }
    let p := mTransition m stateReadyDisconnected
    if p.1.pendingPF then
      let m := { p.1 with pendingPF := false }
      let q := mEnterError m errorKindProcessFailed "Процесс завершился с ошибкой"
        "process crashed"
      (q.1, p.2 ++ q.2)
    else (p.1, p.2)
  else (m, [MCall.debugLog ("disconnecting: ignored " ++ e.type)])

/-- Outcome of one CheckHealth call as the preflight payload builder
distinguishes it: a context deadline, a controlclient.Error carrying an
ErrorKind and HTTP status, or any other error text. -/
inductive HealthErr
  | deadlineExceeded
  | controlErr (kind : String) (status : Int) (text : String)
  | otherErr (text : String)
  deriving DecidableEq

/-- Embedding of a state.ScenarioResultPayload value. -/
structure ScenarioResult where
  kind : String
  message : String
  technicalMessage : String
  deriving DecidableEq

/-- Error text of a HealthErr, mirroring err.Error(). -/
def healthErrText : HealthErr → String
  | HealthErr.deadlineExceeded => "context deadline exceeded"
  | HealthErr.controlErr _ _ text => text
  | HealthErr.otherErr text => text

/-- Embedding of buildPreflightFailurePayload (operations.go): default
NetworkUnavailable with the retry notice, specialised for deadline and
controlclient errors. -/
def buildPreflightFailurePayload (err : Option HealthErr) : ScenarioResult :=
  let payload : ScenarioResult :=
    { kind := errorKindNetworkUnavailable
      message := "Нет связи с управляющим сервером. Повторим через 5 секунд"
      technicalMessage := "" }
  match err with
  | none => payload
  | some e =>
    let payload := { payload with technicalMessage := healthErrText e }
    match e with
    | HealthErr.deadlineExceeded =>
      { payload with message := "Истекло время ожидания ответа управляющего сервера" }
    | HealthErr.controlErr kind status _ =>
      let payload := if kind ≠ "" then { payload with kind := kind } else payload
      if 0 < status then
        { payload with message :=
            "Управляющий сервер недоступен (код " ++ toString status ++ ")" }
      else payload
    | HealthErr.otherErr _ => payload

/-- Observable actions of Application.startPreflight.  An `attempt` entry
is one CheckHealth call under the given deadline in seconds; `sleepDelay`
is the pause between attempts in seconds; the dispatch entries are the
terminal events sent to the state machine. -/
inductive PreflightAction
  | attempt (deadlineSec : Nat)
  | sleepDelay (sec : Nat)
  | dispatchSuccess
  | dispatchFailure (payload : ScenarioResult)
  deriving DecidableEq

/-- Environment of a preflight run: `health n` is the outcome of the
CheckHealth call of attempt `n` (`none` = success) and `stopping` is the
application shutdown flag (the flag only ever rises once; a run entirely
before or entirely after that edge is a constant flag, which is the case
the claims speak about). -/
structure PreflightEnv where
  health : Nat → Option HealthErr
  stopping : Bool

/-- Loop body of startPreflight: `remaining` counts the attempts still
allowed (attempt < preflightAttempts in the source is remaining > 1), and
`lastErr` carries the last failure for the terminal payload. -/
def preflightFrom (env : PreflightEnv) (attempt : Nat) :
    Nat → Option HealthErr → List PreflightAction
  | 0, lastErr => [PreflightAction.dispatchFailure (buildPreflightFailurePayload lastErr)]
  | r + 1, _ =>
    if env.stopping then []
    else
      PreflightAction.attempt 10 ::
        match env.health attempt with
        | none => [PreflightAction.dispatchSuccess]
        | some e =>
          if r = 0 then preflightFrom env (attempt + 1) 0 (some e)
          else if env.stopping then []
          else PreflightAction.sleepDelay 2 :: preflightFrom env (attempt + 1) r (some e)

/-- Number of attempts the preflight scenario makes, from operations.go. -/
def preflightAttempts : Nat := 3

/-- Embedding of Application.startPreflight: up to preflightAttempts
CheckHealth calls with a 10 second deadline each and a 2 second delay
between attempts, dispatching PreflightSuccess on the first success and
one PreflightFailure after exhaustion. -/
def startPreflightTrace (env : PreflightEnv) : List PreflightAction :=
  preflightFrom env 1 preflightAttempts none

/-- RouteKind constant Service (Go string type state.RouteKind). -/
def routeKindService : String := "Service"

/-- RouteKind constant Direct. -/
def routeKindDirect : String := "Direct"

/-- RouteKind constant Tunnel. -/
def routeKindTunnel : String := "Tunnel"

/-- Embedding of state.GatewayInfo in the variant operations.go compiles
against (it reads InterfaceName). -/
structure GatewayInfo where
  ip : String
  interfaceIndex : Int
  interfaceName : String
  metric : Int
  deriving DecidableEq

/-- Embedding of state.Server (the Server plus RouteProfile data model the
connect scenario uses); CoreConfigFilePath bookkeeping is not modelled,
it is never read by the scenarios. -/
structure ServerM where
  id : String
  name : String
  country : String
  host : String
  port : Int
  coreConfigRaw : String
  deriving DecidableEq

/-- Embedding of state.RouteProfile. -/
structure RouteProfileM where
  id : String
  name : String
  directRoutes : List String
  tunnelRoutes : List String
  deriving DecidableEq

/-- Embedding of the config.Config fields the connect scenario reads. -/
structure AppConfig where
  appDir : String
  corePath : String
  coreLogFile : String
  deriving DecidableEq

/-- Embedding of the AppContext fields the connect scenario reads and
writes; RoutesRegistry is held as its list of records (ids are unique). -/
structure ConnCtx where
  serversList : List ServerM
  routesProfiles : List RouteProfileM
  selectedServerID : String
  selectedProfileID : String
  defaultGateway : Option GatewayInfo
  killSwitchRules : List String
  routesRegistry : List RouteRecord
  deriving DecidableEq

/-- Embedding of RoutesRegistry.Upsert: replace the record with the same
id or append. -/
def registryUpsert (reg : List RouteRecord) (r : RouteRecord) : List RouteRecord :=
  if reg.any (fun x => x.id = r.id) then reg.map (fun x => if x.id = r.id then r else x)
  else reg ++ [r]

/-- Embedding of RoutesRegistry.Remove. -/
def registryRemove (reg : List RouteRecord) (id : String) : List RouteRecord :=
  reg.filter (fun x => x.id ≠ id)

/-- Externally observable side-effect set of the client, in the terms the
specification's rollback property enumerates: OS routes added by the
client, installed firewall rules, the supervised core process, and the
written core-config file (DNS on the tunnel adapter lives and dies with
the adapter of the core process and is outside this enumeration). -/
structure World where
  osRoutes : List RouteRecord
  fwRules : List String
  coreRunning : Bool
  configWritten : Bool
  deriving DecidableEq

/-- Embedding of connectArtifacts, the per-attempt rollback journal. -/
structure ConnectArtifacts where
  routes : List RouteRecord
  coreStarted : Bool
  killSwitchRules : List String
  deriving DecidableEq

/-- Embedding of scenarioError: kind, user message and technical text. -/
structure ScenErr where
  kind : String
  message : String
  tech : String
  deriving DecidableEq

/-- State threaded through the connect scenario: the AppContext, the
observable world, the artifact journal, and a counter standing in for the
UnixNano timestamps used in route record ids. -/
structure ConnState where
  ctx : ConnCtx
  world : World
  art : ConnectArtifacts
  nextId : Nat
  deriving DecidableEq

/-- Effector calls the connect scenario and its rollback issue, in
program order. -/
inductive ConnCall
  | detectGatewayCall
  | addRouteCall (cidr gatewayIp kind : String)
  | blockDNSCall (iface : String)
  | writeConfigFile (fileName : String)
  | checkConfigCall (corePath : String)
  | launchCoreCall (corePath : String)
  | probeTunnelCall
  | setDNSCall (iface : String) (servers : List String)
  | stopCoreCall (timeoutSec : Nat)
  | removeRulesCall (rules : List String)
  | removeRouteCall (args : List String)
  | dispatchConnectingFailure (kind message : String)
  | dispatchConnectingSuccess
  deriving DecidableEq

/-- Environment resolving every platform-effector outcome of one connect
attempt: gateway probing, route.exe ADD per id-counter value, the
firewall BlockDNSOnInterface result, config write, core check and launch,
tunnel probing, DNS, and the rollback-side removal outcomes. -/
structure ConnectEnv where
  stopping : Bool
  detectGateway : Except String GatewayInfo
  addRouteOk : Nat → Bool
  blockDNS : Except String (List String)
  writeOk : Bool
  checkOk : Bool
  launchOk : Bool
  tunnelGateway : Except String GatewayInfo
  dnsOk : Bool
  maskOfCidr : String → Option String
  removeRouteOk : RouteRecord → Bool
  removeRulesOk : Bool

/-- Embedding of prepareGatewayErrorMessage (operations.go keeps these
literals in a mangled encoding; they are copied byte-for-byte). -/
def prepareGatewayErrorMessage (err : Option String) : String :=
  match err with
  | none => "РќРµ СѓРґР°Р»РѕСЃСЊ РѕРїСЂРµРґРµР»РёС‚СЊ С€Р»СЋР· РїРѕ СѓРјРѕР»С‡Р°РЅРёСЋ"
  | some msg =>
    if strContains msg.toLower "multiple default gateways" then
      "РћР±РЅР°СЂСѓР¶РµРЅРѕ РЅРµСЃРєРѕР»СЊРєРѕ С€Р»СЋР·РѕРІ РїРѕ СѓРјРѕР»С‡Р°РЅРёСЋ"
    else "РќРµ СѓРґР°Р»РѕСЃСЊ РѕРїСЂРµРґРµР»РёС‚СЊ С€Р»СЋР· РїРѕ СѓРјРѕР»С‡Р°РЅРёСЋ"

/-- Embedding of AppContext.FindServer. -/
def findServer (l : List ServerM) (id : String) : Option ServerM :=
  l.find? (fun s => s.id = id)

/-- Embedding of AppContext.FindRouteProfile. -/
def findRouteProfile (l : List RouteProfileM) (id : String) : Option RouteProfileM :=
  l.find? (fun p => p.id = id)

/-- Embedding of gatewayMetric (routes manager): non-positive metrics are
coerced to 1. -/
def gatewayMetric (gw : GatewayInfo) : Int :=
  if gw.metric ≤ 0 then 1 else gw.metric

/-- Route record built by routes.Manager.AddCIDRRoute on success, with the
UnixNano timestamp replaced by the id counter `n`. -/
def mkAddedRoute (cidr : String) (gw : GatewayInfo) (kind : String) (n : Nat) :
    RouteRecord :=
  { id := kind ++ "-" ++ cidr ++ "-" ++ toString n
    destination := cidr
    gateway := gw.ip
    interfaceIndex := gw.interfaceIndex
    metric := gatewayMetric gw
    kind := kind
    active := true }

/-- Loop body of Application.addProfileRoutes: trim each CIDR, skip empty
entries, call AddCIDRRoute (outcome decided by `env.addRouteOk` at the
current id counter, covering both CIDR parse failures and route.exe
failures), journal each success into the registry and the artifacts, and
abort with a RoutingFailed scenario error naming the CIDR on the first
failure. -/
def addRoutesLoop (env : ConnectEnv) (gw : GatewayInfo) (kind : String) :
    ConnState → List String → ConnState × List ConnCall × Option ScenErr
  | s, [] => (s, [], none)
  | s, cidr0 :: rest =>
    let cidr := goTrimSpace cidr0
    if cidr = "" then addRoutesLoop env gw kind s rest
    else if env.addRouteOk s.nextId then
      let record := mkAddedRoute cidr gw kind s.nextId
      let s :=
        { s with
          world := { s.world with osRoutes := s.world.osRoutes ++ [record] }
          ctx := { s.ctx with routesRegistry := registryUpsert s.ctx.routesRegistry record }
          art := { s.art with routes := s.art.routes ++ [record] }
          nextId := s.nextId + 1 }
      let t := addRoutesLoop env gw kind s rest
      (t.1, ConnCall.addRouteCall cidr gw.ip kind :: t.2.1, t.2.2)
    else
      (s, [ConnCall.addRouteCall cidr gw.ip kind],
        some ⟨errorKindRoutingFailed, "Не удалось добавить маршрут " ++ cidr, "add route failed"⟩)

/-- Embedding of Application.addProfileRoutes including its gateway guard. -/
def addProfileRoutes (env : ConnectEnv) (s : ConnState) (cidrs : List String)
    (kind : String) (gw : Option GatewayInfo) :
    ConnState × List ConnCall × Option ScenErr :=
  match gw with
  | none => (s, [], some ⟨errorKindRoutingFailed, "Маршрутный шлюз не задан", "route gateway is nil"⟩)
  | some g =>
    if goTrimSpace g.ip = "" then
      (s, [], some ⟨errorKindRoutingFailed, "Маршрутный шлюз не задан", "route gateway is nil"⟩)
    else addRoutesLoop env g kind s cidrs

/-- Embedding of Application.applyKillSwitch: the rules returned by
BlockDNSOnInterface on the default-gateway interface are recorded in the
world, in AppContext.KillSwitchRules and in the artifact journal. -/
def applyKillSwitch (env : ConnectEnv) (s : ConnState) :
    ConnState × List ConnCall × Option ScenErr :=
  match s.ctx.defaultGateway with
  | none =>
    (s, [], some ⟨errorKindRoutingFailed, "Kill Switch не может определить основной интерфейс",
      "default gateway is nil"⟩)
  | some gw =>
    if goTrimSpace gw.interfaceName = "" then
      (s, [], some ⟨errorKindRoutingFailed, "Kill Switch не может определить основной интерфейс",
        "default gateway interface name is empty"⟩)
    else
      match env.blockDNS with
      | Except.error e =>
        (s, [ConnCall.blockDNSCall gw.interfaceName],
          some ⟨errorKindRoutingFailed, "Не удалось применить Kill Switch", e⟩)
      | Except.ok rules =>
        ({ s with
            world := { s.world with fwRules := s.world.fwRules ++ rules }
            ctx := { s.ctx with killSwitchRules := rules }
            art := { s.art with killSwitchRules := s.art.killSwitchRules ++ rules } },
          [ConnCall.blockDNSCall gw.interfaceName], none)

/-- Embedding of Application.writeCoreConfig: empty core config is an
error, otherwise the file `{sanitized}.json` is written (directory
creation and the write are one oracle outcome). -/
def writeCoreConfigM (env : ConnectEnv) (server : ServerM) (s : ConnState) :
    ConnState × List ConnCall × Option String :=
  if server.coreConfigRaw = "" then
    (s, [], some ("core config for server " ++ server.id ++ " is empty"))
  else
    let fileName := sanitizeFileName server.name server.id ++ ".json"
    if env.writeOk then
      ({ s with world := { s.world with configWritten := true } },
        [ConnCall.writeConfigFile fileName], none)
    else (s, [ConnCall.writeConfigFile fileName], some "write core config failed")

/-- Embedding of Application.checkCoreConfig: run `core check -c path`
synchronously (the check-mode child exits by itself and is not a lasting
side effect). -/
def checkCoreConfigM (env : ConnectEnv) (cfg : AppConfig) (path : String) :
    List ConnCall × Option String :=
  if goTrimSpace cfg.corePath = "" then ([], some "core path is not configured")
  else if goTrimSpace path = "" then ([], some "core config path is empty")
  else if env.checkOk then ([ConnCall.checkConfigCall cfg.corePath], none)
  else ([ConnCall.checkConfigCall cfg.corePath], some "core config check failed")

/-- Embedding of Application.applyTunnelDNS on the probed tunnel gateway. -/
def applyTunnelDNS (env : ConnectEnv) (gw : GatewayInfo) :
    List ConnCall × Option ScenErr :=
  if goTrimSpace gw.interfaceName = "" then
    ([], some ⟨errorKindRoutingFailed, "Не удалось определить интерфейс туннеля",
      "tunnel interface name is empty"⟩)
  else if env.dnsOk then
    ([ConnCall.setDNSCall gw.interfaceName ["100.64.127.2"]], none)
  else
    ([ConnCall.setDNSCall gw.interfaceName ["100.64.127.2"]],
      some ⟨errorKindRoutingFailed, "Не удалось настроить DNS туннеля", "set dns failed"⟩)

/-- Embedding of Application.executeConnecting, steps in source order:
re-probe the default gateway, resolve server and route profile, add the
direct routes, apply the kill switch, write and check the core config,
launch the core (marking coreStarted in the journal), wait for the tunnel
gateway, set the tunnel DNS, and add the tunnel routes.  The result is
the mutated state (mutations made before a failure persist, as they do
through the Go pointers), the effector trace, and the scenario error of
the first failing step. -/
def executeConnecting (env : ConnectEnv) (cfg : AppConfig) (s : ConnState) :
    ConnState × List ConnCall × Option ScenErr :=
  match env.detectGateway with
  | Except.error e =>
    (s, [ConnCall.detectGatewayCall],
      some ⟨errorKindRoutingFailed, prepareGatewayErrorMessage (some e), e⟩)
  | Except.ok gateway =>
    let s := { s with ctx := { s.ctx with defaultGateway := some gateway } }
    match findServer s.ctx.serversList s.ctx.selectedServerID with
    | none =>
      (s, [ConnCall.detectGatewayCall],
        some ⟨errorKindConfigFailed, "Не удалось найти выбранный сервер",
          "server " ++ s.ctx.selectedServerID ++ " not found"⟩)
    | some server =>
      if goTrimSpace server.host = "" then
        (s, [ConnCall.detectGatewayCall],
          some ⟨errorKindConfigFailed, "Сервер не содержит адрес", "server host is empty"⟩)
      else if server.port ≤ 0 then
        (s, [ConnCall.detectGatewayCall],
          some ⟨errorKindConfigFailed, "Сервер не содержит корректный порт",
            "server port " ++ toString server.port ++ " invalid"⟩)
      else
        match findRouteProfile s.ctx.routesProfiles s.ctx.selectedProfileID with
        | none =>
          (s, [ConnCall.detectGatewayCall],
            some ⟨errorKindConfigFailed, "Не удалось найти профиль маршрутов",
              "profile " ++ s.ctx.selectedProfileID ++ " not found"⟩)
        | some profile =>
          let t1 := addProfileRoutes env s profile.directRoutes routeKindDirect
            s.ctx.defaultGateway
          let tr1 := ConnCall.detectGatewayCall :: t1.2.1
          match t1.2.2 with
          | some err => (t1.1, tr1, some err)
          | none =>
            let t2 := applyKillSwitch env t1.1
            let tr2 := tr1 ++ t2.2.1
            match t2.2.2 with
            | some err => (t2.1, tr2, some err)
            | none =>
              let t3 := writeCoreConfigM env server t2.1
              let tr3 := tr2 ++ t3.2.1
              match t3.2.2 with
              | some e =>
                (t3.1, tr3, some ⟨errorKindConfigFailed,
                  "Не удалось записать конфигурацию Core", e⟩)
              | none =>
                let configPath := sanitizeFileName server.name server.id ++ ".json"
                let t4 := checkCoreConfigM env cfg configPath
                let tr4 := tr3 ++ t4.1
                match t4.2 with
                | some e =>
                  (t3.1, tr4, some ⟨errorKindConfigFailed,
                    "Проверка конфигурации Core не прошла", e⟩)
                | none =>
                  if env.launchOk then
                    let s5 := { t3.1 with
                      world := { t3.1.world with coreRunning := true }
                      art := { t3.1.art with coreStarted := true } }
                    let tr5 := tr4 ++ [ConnCall.launchCoreCall cfg.corePath]
                    match (if env.stopping then Except.error "tunnel detection canceled"
                           else env.tunnelGateway) with
                    | Except.error e =>
                      (s5, tr5 ++ [ConnCall.probeTunnelCall],
                        some ⟨errorKindRoutingFailed,
                          "Не удалось определить интерфейс туннеля", e⟩)
                    | Except.ok tunnelGw =>
                      let tr6 := tr5 ++ [ConnCall.probeTunnelCall]
                      let t7 := applyTunnelDNS env tunnelGw
                      let tr7 := tr6 ++ t7.1
                      match t7.2 with
                      | some err => (s5, tr7, some err)
                      | none =>
                        let t8 := addProfileRoutes env s5 profile.tunnelRoutes
                          routeKindTunnel (some tunnelGw)
                        (t8.1, tr7 ++ t8.2.1, t8.2.2)
                  else
                    (t3.1, tr4 ++ [ConnCall.launchCoreCall cfg.corePath],
                      some ⟨errorKindProcessFailed, "Не удалось запустить Core",
                        "launch failed"⟩)

/-- Embedding of Application.removeKillSwitch: default to the context's
rule list when called with an empty argument, attempt RemoveRules, and on
success drop the rules from the firewall and clear the context list. -/
def removeKillSwitchM (env : ConnectEnv) (s : ConnState) (rulesArg : List String) :
    ConnState × List ConnCall :=
  let rules := if rulesArg.isEmpty then s.ctx.killSwitchRules else rulesArg
  if rules.isEmpty then (s, [])
  else if env.removeRulesOk then
    ({ s with
        world := { s.world with fwRules := s.world.fwRules.filter (fun n => !(rules.contains n)) }
        ctx := { s.ctx with killSwitchRules := [] } },
      [ConnCall.removeRulesCall rules])
  else (s, [ConnCall.removeRulesCall rules])

/-- Embedding of Application.removeRouteRecord: the routes manager's
RemoveRoute decides whether a DELETE command is issued (its guard can
refuse); when the command runs and succeeds the OS route disappears and
the registry entry is removed.  The Bool reports success. -/
def removeRouteRecordM (env : ConnectEnv) (s : ConnState) (r : RouteRecord) :
    ConnState × List ConnCall × Bool :=
  match routeManagerRemoveRoute env.maskOfCidr r with
  | Except.error _ => (s, [], false)
  | Except.ok args =>
    if env.removeRouteOk r then
      ({ s with
          world := { s.world with osRoutes := s.world.osRoutes.erase r }
          ctx := { s.ctx with routesRegistry := registryRemove s.ctx.routesRegistry r.id } },
        [ConnCall.removeRouteCall args], true)
    else (s, [ConnCall.removeRouteCall args], false)

/-- Route-removal sweep of connectArtifacts.rollback over an explicit
record list (the caller passes the journal in reverse add-order);
failures are logged and the sweep continues. -/
def rollbackRoutes (env : ConnectEnv) :
    ConnState → List RouteRecord → ConnState × List ConnCall
  | s, [] => (s, [])
  | s, r :: rest =>
    let t := removeRouteRecordM env s r
    let u := rollbackRoutes env t.1 rest
    (u.1, t.2.1 ++ u.2)

/-- Embedding of connectArtifacts.rollback: stop the core with the 5 s
budget if this attempt started it (stopProcess ignores Stop errors and
Stop kills after the timeout, so the process is gone either way), remove
the kill-switch rules this attempt installed, then remove the journalled
routes in reverse add-order. -/
def connectRollback (env : ConnectEnv) (s : ConnState) : ConnState × List ConnCall :=
  let p1 : ConnState × List ConnCall :=
    if s.art.coreStarted then
      ({ s with world := { s.world with coreRunning := false } }, [ConnCall.stopCoreCall 5])
    else (s, [])
  let p2 : ConnState × List ConnCall :=
    if p1.1.art.killSwitchRules.isEmpty then (p1.1, [])
    else removeKillSwitchM env p1.1 p1.1.art.killSwitchRules
  let p3 := rollbackRoutes env p2.1 p2.1.art.routes.reverse
  (p3.1, p1.2 ++ p2.2 ++ p3.2)

/-- Embedding of Application.startConnecting: run executeConnecting with
a fresh artifact journal; on failure run rollback and then dispatch one
ConnectingFailure event carrying the scenario error (kind defaulting to
ProcessFailed, message to the generic connect-failure text); on success
dispatch ConnectingSuccess. -/
def startConnecting (env : ConnectEnv) (cfg : AppConfig) (ctx0 : ConnCtx)
    (w0 : World) : ConnState × List ConnCall :=
  let s0 : ConnState := ⟨ctx0, w0, ⟨[], false, []⟩, 0⟩
  if env.stopping then (s0, [])
  else
    let t := executeConnecting env cfg s0
    match t.2.2 with
    | none => (t.1, t.2.1 ++ [ConnCall.dispatchConnectingSuccess])
    | some err =>
      let p := connectRollback env t.1
      let kind := if err.kind = "" then errorKindProcessFailed else err.kind
      let message := if err.message = "" then
        "РќРµ СѓРґР°Р»РѕСЃСЊ РїРѕРґРєР»СЋС‡РёС‚СЊСЃСЏ" else err.message
      (p.1, t.2.1 ++ p.2 ++ [ConnCall.dispatchConnectingFailure kind message])

/-- Specification-side description of the sanitisation base: the first
non-empty trimmed argument, else the "core-config" fallback.  This
definition follows the specification's words and is compared against
`sanitizeFileName`, which follows the source. -/
def specSanitizeBase (name fallback : String) : String :=
  if goTrimSpace name ≠ "" then goTrimSpace name
  else if goTrimSpace fallback ≠ "" then goTrimSpace fallback
  else "core-config"

/-- Specification-side per-character sanitisation: keep the characters of
the classes a-z, A-Z, 0-9 and replace every other character with an
underscore. -/
def specSanitizeChar (c : Char) : Char :=
  if isAsciiAlnum c then c else '_'

/-- Boolean acceptance of a DTO by ProfileDTO.Validate. -/
def validateAccepts (dto : ProfileDTO) : Bool :=
  match dto.Validate with
  | Except.ok _ => true
  | Except.error _ => false

/-- Arguments of the DELETE command RemoveRoute issues for a record whose
guard passes (empty when the guard refuses). -/
def routeDeleteArgs (maskOf : String → Option String) (r : RouteRecord) : List String :=
  match routeManagerRemoveRoute maskOf r with
  | Except.ok args => args
  | Except.error _ => []

/-- Default user message of a failed connect attempt, as the mangled
literal in startConnecting. -/
def defaultConnectFailMessage : String := "РќРµ СѓРґР°Р»РѕСЃСЊ РїРѕРґРєР»СЋС‡РёС‚СЊСЃСЏ"

/-- Invariant tying a connect-scenario state to the initial state: the OS
routes are the initial ones plus exactly the journalled routes, the
firewall rules are the initial ones plus exactly the journalled rules,
the core runs exactly if the journal says this attempt started it, and
every journalled route has the non-empty gateway and destination that
make the RemoveRoute guard pass. -/
def ConnInv (s0 s : ConnState) : Prop :=
  s.world.osRoutes = s0.world.osRoutes ++ s.art.routes ∧
  s.world.fwRules = s0.world.fwRules ++ s.art.killSwitchRules ∧
  s.world.coreRunning = (s0.world.coreRunning || s.art.coreStarted) ∧
  (∀ r ∈ s.art.routes, r.gateway ≠ "" ∧ r.destination ≠ "")

/-- Fixture DTO for the port-validation witness. -/
def dtoFixture : ProfileDTO :=
  ⟨"p1", "Profile One", "NL", "1.2.3.4", 443, "cfg", ["10.0.0.0/8"], ["0.0.0.0/0"], false⟩

/-- Fixture machine context in state Connected for the process-exit
witness. -/
def machineConnectedFixture : MachineCtx :=
  ⟨stateConnected, false, none, "p1",
    ⟨false, true, false, true, "p1", "Подключено", "user", "pass", false, false⟩⟩

/-- Fixture machine context in state WaitingLogin for the login witness. -/
def machineWaitingFixture : MachineCtx :=
  ⟨stateWaitingLogin, false, none, "",
    ⟨true, false, false, false, "", "Введите логин и пароль", "", "", true, false⟩⟩

/-- Preflight environment whose health endpoint is immediately up. -/
def preflightUpEnv : PreflightEnv := ⟨fun _ => none, false⟩

/-- Preflight environment whose health endpoint is always down. -/
def preflightDownEnv : PreflightEnv :=
  ⟨fun _ => some (HealthErr.otherErr "connection refused"), false⟩

/-- Kill-switch flag of the selected profile in the kill-switch
counterexample scenario: the claim speaks of the profile's kill_switch
flag, the connect scenario's route-profile model carries no such field,
so the flag is a free parameter of the scenario; here it is false. -/
def killSwitchFlagFixture : Bool := false

/-- Connect environment in which every effector succeeds. -/
def connectEnvFixture : ConnectEnv :=
  { stopping := false
    detectGateway := Except.ok ⟨"192.168.1.1", 12, "Ethernet", 25⟩
    addRouteOk := fun _ => true
    blockDNS := Except.ok ["CustomVPN KillSwitch DNS UDP", "CustomVPN KillSwitch DNS TCP"]
    writeOk := true
    checkOk := true
    launchOk := true
    tunnelGateway := Except.ok ⟨"100.64.127.1", 33, "CustomVPN Tunnel", 1⟩
    dnsOk := true
    maskOfCidr := fun _ => none
    removeRouteOk := fun _ => true
    removeRulesOk := true }

/-- Application config fixture for the kill-switch counterexample. -/
def connectCfgFixture : AppConfig := ⟨"C:/app", "C:/app/core.exe", "C:/app/logs/core.log"⟩

/-- AppContext fixture with one server and one route profile selected. -/
def connectCtxFixture : ConnCtx :=
  ⟨[⟨"s1", "FR 1 prod", "FR", "1.2.3.4", 443, "cfgbytes"⟩],
    [⟨"p1", "Default", ["10.0.0.0/8"], ["0.0.0.0/0"]⟩],
    "s1", "p1", none, [], []⟩

/-- Pristine world fixture for the kill-switch counterexample. -/
def connectWorldFixture : World := ⟨[], [], false, false⟩

/-- Connect environment for the rollback witness: the first route.exe ADD
succeeds, the second fails, everything on the removal side succeeds. -/
def rollbackEnvFixture : ConnectEnv :=
  { stopping := false
    detectGateway := Except.ok ⟨"192.168.1.1", 12, "Ethernet", 25⟩
    addRouteOk := fun n => n == 0
    blockDNS := Except.ok ["CustomVPN KillSwitch DNS UDP", "CustomVPN KillSwitch DNS TCP"]
    writeOk := true
    checkOk := true
    launchOk := true
    tunnelGateway := Except.ok ⟨"100.64.127.1", 33, "CustomVPN Tunnel", 1⟩
    dnsOk := true
    maskOfCidr := fun _ => none
    removeRouteOk := fun _ => true
    removeRulesOk := true }

/-- Application config fixture for the rollback witness. -/
def rollbackCfgFixture : AppConfig := ⟨"C:/app", "C:/app/core.exe", "C:/app/logs/core.log"⟩

/-- AppContext fixture whose route profile has a failing second direct
route. -/
def rollbackCtxFixture : ConnCtx :=
  ⟨[⟨"s1", "FR 1 prod", "FR", "1.2.3.4", 443, "cfgbytes"⟩],
    [⟨"p1", "Default", ["10.0.0.0/8", "bad-cidr"], ["0.0.0.0/0"]⟩],
    "s1", "p1", none, [], []⟩

/-- Pristine world fixture for the rollback witness. -/
def rollbackWorldFixture : World := ⟨[], [], false, false⟩

/-- Helper: the source sanitiser computes exactly the specification-side
base-selection-then-character-map description. -/
theorem sanitizeFileName_eq_spec (name fallback : String) :
    sanitizeFileName name fallback =
      String.mk ((specSanitizeBase name fallback).data.map specSanitizeChar) := by
  unfold sanitizeFileName specSanitizeBase specSanitizeChar
  by_cases h1 : goTrimSpace name = "" <;> by_cases h2 : goTrimSpace fallback = "" <;>
    simp [h1, h2]

/-- C5 counterexample: with both arguments empty the sanitiser falls back
to the literal "core-config" and then sanitises it too, so the result is
"core_config", not the claimed "core-config". -/
theorem claim_C5_counterexample :
    sanitizeFileName "" "" = "core_config" ∧ sanitizeFileName "" "" ≠ "core-config" := by
  constructor
  · decide
  · decide

/-- C5 (amended): sanitizeFileName keeps exactly the characters a-z, A-Z,
0-9 of its first non-empty (after trim) argument, the name, else the
fallback id, else the "core-config" fallback, replacing every other
character with an underscore; sanitize("FR #1 / prod", x) = "FR__1___prod",
sanitize("", "id-xyz") = "id_xyz", and sanitize("", "") = "core_config"
(the fallback literal is itself sanitised). -/
theorem claim_C5_sanitize (name fallback : String) :
    sanitizeFileName name fallback =
      String.mk ((specSanitizeBase name fallback).data.map specSanitizeChar) ∧
    (∀ fb, sanitizeFileName "FR #1 / prod" fb = "FR__1___prod") ∧
    sanitizeFileName "" "id-xyz" = "id_xyz" ∧
    sanitizeFileName "" "" = "core_config" := by
  refine ⟨sanitizeFileName_eq_spec name fallback, ?_, by decide, by decide⟩
  intro fb
  rw [sanitizeFileName_eq_spec]
  unfold specSanitizeBase
  rw [if_pos (by decide : goTrimSpace "FR #1 / prod" ≠ "")]
  decide

/-- C9: with non-empty id, name and host, profile validation accepts a
port exactly when it lies in 1..65535; in particular 0, any non-positive
port and 65536 are rejected while 1 and 65535 are accepted. -/
theorem claim_C9_port_validation (dto : ProfileDTO)
    (hid : dto.id ≠ "") (hname : dto.name ≠ "") (hhost : dto.host ≠ "") :
    (validateAccepts dto = true ↔ (1 ≤ dto.port ∧ dto.port ≤ 65535)) ∧
    (∀ p : Int, p ≤ 0 → validateAccepts { dto with port := p } = false) ∧
    validateAccepts { dto with port := 0 } = false ∧
    validateAccepts { dto with port := 65536 } = false ∧
    validateAccepts { dto with port := 1 } = true ∧
    validateAccepts { dto with port := 65535 } = true := by
  have key : ∀ q : Int, validateAccepts { dto with port := q } = true ↔ (1 ≤ q ∧ q ≤ 65535) := by
    intro q
    unfold validateAccepts ProfileDTO.Validate
    simp only [show ({ dto with port := q } : ProfileDTO).id = dto.id from rfl,
      show ({ dto with port := q } : ProfileDTO).name = dto.name from rfl,
      show ({ dto with port := q } : ProfileDTO).host = dto.host from rfl,
      show ({ dto with port := q } : ProfileDTO).port = q from rfl,
      if_neg hid, if_neg hname, if_neg hhost]
    by_cases h : q ≤ 0 ∨ 65535 < q
    · rw [if_pos (by simpa using h)]
      simp
      omega
    · rw [if_neg (by simpa using h)]
      simp
      omega
  have keySelf : validateAccepts dto = true ↔ (1 ≤ dto.port ∧ dto.port ≤ 65535) := by
    have := key dto.port
    simpa using this
  refine ⟨keySelf, ?_, ?_, ?_, ?_, ?_⟩
  · intro p hp
    have := key p
    rcases h : validateAccepts { dto with port := p } with _ | _
    · rfl
    · exfalso
      have := (key p).mp h
      omega
  · have := key 0
    rcases h : validateAccepts { dto with port := (0 : Int) } with _ | _
    · rfl
    · exfalso; have := (key 0).mp h; omega
  · have := key 65536
    rcases h : validateAccepts { dto with port := (65536 : Int) } with _ | _
    · rfl
    · exfalso; have := (key 65536).mp h; omega
  · exact (key 1).mpr (by omega)
  · exact (key 65535).mpr (by omega)

/-- C9 witness: the characterisation instantiated at a concrete DTO. -/
theorem claim_C9_witness :
    (validateAccepts dtoFixture = true ↔ (1 ≤ dtoFixture.port ∧ dtoFixture.port ≤ 65535)) ∧
    (∀ p : Int, p ≤ 0 → validateAccepts { dtoFixture with port := p } = false) ∧
    validateAccepts { dtoFixture with port := 0 } = false ∧
    validateAccepts { dtoFixture with port := 65536 } = false ∧
    validateAccepts { dtoFixture with port := 1 } = true ∧
    validateAccepts { dtoFixture with port := 65535 } = true :=
  claim_C9_port_validation dtoFixture (by decide) (by decide) (by decide)

/-- C8: RemoveRoute refuses a default-route record with an empty gateway
before issuing any command, and for every record with a non-empty
destination outside that guarded case it issues a DELETE command whose
first argument is DELETE and whose second is the destination stripped at
the first slash. -/
theorem claim_C8_remove_route_guard (maskOf : String → Option String) (r : RouteRecord) :
    (((r.destination = "0.0.0.0" ∨ r.destination = "0.0.0.0/0") ∧ r.gateway = "") →
      routeManagerRemoveRoute maskOf r =
        Except.error "refusing to delete default route without gateway") ∧
    (r.destination ≠ "" →
      ¬ ((r.destination = "0.0.0.0" ∨ r.destination = "0.0.0.0/0") ∧ r.gateway = "") →
      ∃ rest, routeManagerRemoveRoute maskOf r =
        Except.ok ("DELETE" ::
          String.mk (r.destination.data.takeWhile (fun c => c ≠ '/')) :: rest)) := by
  constructor
  · rintro ⟨hdest, hgw⟩
    have hne : r.destination ≠ "" := by
      rcases hdest with h | h <;> rw [h] <;> decide
    unfold routeManagerRemoveRoute
    rw [if_neg hne, if_pos]
    simp only [Bool.and_eq_true, Bool.or_eq_true, decide_eq_true_eq]
    exact ⟨hdest, hgw⟩
  · intro hne hguard
    unfold routeManagerRemoveRoute
    rw [if_neg hne, if_neg]
    · cases maskOf r.destination <;>
        by_cases hg : r.gateway ≠ "" <;>
          by_cases hi : (0 : Int) < r.interfaceIndex <;>
            simp [hg, hi]
    · simp only [Bool.and_eq_true, Bool.or_eq_true, decide_eq_true_eq]
      exact hguard

/-- C8 witness: the guard fires for the default route with no gateway and
the DELETE command is issued for an ordinary record. -/
theorem claim_C8_witness :
    (routeManagerRemoveRoute (fun _ => none)
        ⟨"Tunnel-0.0.0.0/0-1", "0.0.0.0/0", "", 0, 1, "Tunnel", true⟩ =
      Except.error "refusing to delete default route without gateway") ∧
    (∃ rest, routeManagerRemoveRoute (fun _ => none)
        ⟨"Direct-10.0.0.0/8-2", "10.0.0.0/8", "192.168.1.1", 12, 25, "Direct", true⟩ =
      Except.ok ("DELETE" ::
        String.mk (("10.0.0.0/8" : String).data.takeWhile (fun c => c ≠ '/')) :: rest)) :=
  ⟨(claim_C8_remove_route_guard (fun _ => none)
      ⟨"Tunnel-0.0.0.0/0-1", "0.0.0.0/0", "", 0, 1, "Tunnel", true⟩).1
        ⟨Or.inr rfl, rfl⟩,
    (claim_C8_remove_route_guard (fun _ => none)
      ⟨"Direct-10.0.0.0/8-2", "10.0.0.0/8", "192.168.1.1", 12, 25, "Direct", true⟩).2
        (by decide) (by decide)⟩

/-- C10: Launcher.Stop with no live process registered under the name
returns nil immediately and performs no interrupt, kill, or wait. -/
theorem claim_C10_stop_absent_noop (procs : List String) (name : String)
    (timeoutSec : Int) (exitsBeforeTimeout killOk : Bool)
    (h : procs.contains name = false) :
    launcherStop procs name timeoutSec exitsBeforeTimeout killOk = (none, []) := by
  unfold launcherStop
  rw [if_neg]
  intro hmem
  rw [h] at hmem
  exact Bool.noConfusion hmem

/-- C10 witness: stopping Core on an empty launcher is a no-op. -/
theorem claim_C10_witness :
    launcherStop [] "Core" 5 true true = (none, []) :=
  claim_C10_stop_absent_noop [] "Core" 5 true true (by decide)

/-- C3: when the priority queue is non-empty at the start of a loop
iteration, its head is the event handled in that iteration and the normal
queue is untouched; Dispatch routes an event to the priority channel
exactly when it is an exit event; the channel capacities are 8 and 64. -/
theorem claim_C3_priority_drains_first (p n : List Ev) (hp : p ≠ []) :
    (∃ e rest, p = e :: rest ∧ machineLoopPick p n = some (e, rest, n)) ∧
    (∀ t : String, dispatchTarget t = QueueId.priorityQ ↔
      (t = eventTrayExit ∨ t = eventUIExit)) ∧
    priorityChanCapacity = 8 ∧ eventsChanCapacity = 64 := by
  refine ⟨?_, ?_, rfl, rfl⟩
  · cases p with
    | nil => exact absurd rfl hp
    | cons e rest => exact ⟨e, rest, rfl, rfl⟩
  · intro t
    unfold dispatchTarget isExitEvent
    by_cases h1 : t = eventTrayExit <;> by_cases h2 : t = eventUIExit <;> simp [h1, h2]

/-- C3 witness: instantiated with a queued exit event. -/
theorem claim_C3_witness :
    (∃ e rest, [(⟨eventUIExit, EvPayload.noPayload⟩ : Ev)] = e :: rest ∧
      machineLoopPick [⟨eventUIExit, EvPayload.noPayload⟩]
        [⟨eventUILaunch, EvPayload.noPayload⟩] =
        some (e, rest, [⟨eventUILaunch, EvPayload.noPayload⟩])) ∧
    (∀ t : String, dispatchTarget t = QueueId.priorityQ ↔
      (t = eventTrayExit ∨ t = eventUIExit)) ∧
    priorityChanCapacity = 8 ∧ eventsChanCapacity = 64 :=
  claim_C3_priority_drains_first [⟨eventUIExit, EvPayload.noPayload⟩]
    [⟨eventUILaunch, EvPayload.noPayload⟩] (by decide)

/-- C7: in WaitingLogin, ClickLogin with an after-trim-empty login or
password only raises a transient notice and leaves the machine state
unchanged with no auth scenario started; with both credentials non-empty
after trim the machine moves to AuthInProgress and starts auth. -/
theorem claim_C7_waiting_login (m : MachineCtx) (login password : String)
    (hstate : m.state = stateWaitingLogin) :
    ((goTrimSpace login = "" ∨ goTrimSpace password = "") →
      (handleWaitingLogin m ⟨eventUIClickLogin, EvPayload.credentials login password⟩).1.state
          = stateWaitingLogin ∧
      (handleWaitingLogin m ⟨eventUIClickLogin, EvPayload.credentials login password⟩).1.state
          = m.state ∧
      (handleWaitingLogin m ⟨eventUIClickLogin, EvPayload.credentials login password⟩).2
          = [MCall.showTransient "Укажите логин и пароль"] ∧
      (∀ l p, MCall.startAuth l p ∉
        (handleWaitingLogin m ⟨eventUIClickLogin, EvPayload.credentials login password⟩).2)) ∧
    ((goTrimSpace login ≠ "" ∧ goTrimSpace password ≠ "") →
      (handleWaitingLogin m ⟨eventUIClickLogin, EvPayload.credentials login password⟩).1.state
          = stateAuthInProgress ∧
      MCall.startAuth login password ∈
        (handleWaitingLogin m ⟨eventUIClickLogin, EvPayload.credentials login password⟩).2) := by
  constructor
  · intro hempty
    unfold handleWaitingLogin mApplyCredentials
    rcases hempty with h | h <;>
      simp [eventUIClickLogin, eventUICredentialsChanged, h, hstate]
  · rintro ⟨hl, hp⟩
    unfold handleWaitingLogin mApplyCredentials mTransition updateUIForState
    simp [eventUIClickLogin, eventUICredentialsChanged, hl, hp, hstate,
      stateAuthInProgress, stateWaitingLogin, stateReadyDisconnected, stateConnecting,
      stateConnected, stateDisconnecting, stateError]

/-- C7 witness: the login guard instantiated at a concrete WaitingLogin
machine with an empty login and with full credentials. -/
theorem claim_C7_witness :
    ((handleWaitingLogin machineWaitingFixture
        ⟨eventUIClickLogin, EvPayload.credentials "" "x"⟩).1.state = stateWaitingLogin ∧
      (handleWaitingLogin machineWaitingFixture
        ⟨eventUIClickLogin, EvPayload.credentials "" "x"⟩).1.state
          = machineWaitingFixture.state ∧
      (handleWaitingLogin machineWaitingFixture
        ⟨eventUIClickLogin, EvPayload.credentials "" "x"⟩).2
          = [MCall.showTransient "Укажите логин и пароль"] ∧
      (∀ l p, MCall.startAuth l p ∉
        (handleWaitingLogin machineWaitingFixture
          ⟨eventUIClickLogin, EvPayload.credentials "" "x"⟩).2)) ∧
    ((handleWaitingLogin machineWaitingFixture
        ⟨eventUIClickLogin, EvPayload.credentials "user" "pass"⟩).1.state
          = stateAuthInProgress ∧
      MCall.startAuth "user" "pass" ∈
        (handleWaitingLogin machineWaitingFixture
          ⟨eventUIClickLogin, EvPayload.credentials "user" "pass"⟩).2) :=
  ⟨(claim_C7_waiting_login machineWaitingFixture "" "x" rfl).1 (Or.inl (by decide)),
    (claim_C7_waiting_login machineWaitingFixture "user" "pass" rfl).2
      ⟨by decide, by decide⟩⟩

/-- C4: a ProcessExited event in Connected moves the machine to
Disconnecting with the pending process-failure flag set and starts the
disconnect scenario; the following DisconnectingDone ends in Error with
last_error.kind = ProcessFailed and the flag cleared, while after a
user ClickDisconnect the same DisconnectingDone ends in
ReadyDisconnected. -/
theorem claim_C4_process_exit_flow (m : MachineCtx) (nm : String) (code : Int)
    (reason : String) (hc : m.state = stateConnected) :
    ((handleConnected m ⟨eventSysProcessExited, EvPayload.processExit nm code reason⟩).1.state
        = stateDisconnecting ∧
      (handleConnected m ⟨eventSysProcessExited, EvPayload.processExit nm code reason⟩).1.pendingPF
        = true ∧
      MCall.startDisconnecting ∈
        (handleConnected m ⟨eventSysProcessExited, EvPayload.processExit nm code reason⟩).2 ∧
      (handleDisconnecting
          (handleConnected m ⟨eventSysProcessExited, EvPayload.processExit nm code reason⟩).1
          ⟨eventSysDisconnectingDone, EvPayload.noPayload⟩).1.state = stateError ∧
      (handleDisconnecting
          (handleConnected m ⟨eventSysProcessExited, EvPayload.processExit nm code reason⟩).1
          ⟨eventSysDisconnectingDone, EvPayload.noPayload⟩).1.pendingPF = false ∧
      (handleDisconnecting
          (handleConnected m ⟨eventSysProcessExited, EvPayload.processExit nm code reason⟩).1
          ⟨eventSysDisconnectingDone, EvPayload.noPayload⟩).1.lastError =
        some ⟨errorKindProcessFailed, "Процесс завершился с ошибкой", "process crashed"⟩) ∧
    ((handleConnected m ⟨eventUIClickDisconnect, EvPayload.noPayload⟩).1.state
        = stateDisconnecting ∧
      (handleConnected m ⟨eventUIClickDisconnect, EvPayload.noPayload⟩).1.pendingPF = false ∧
      MCall.startDisconnecting ∈
        (handleConnected m ⟨eventUIClickDisconnect, EvPayload.noPayload⟩).2 ∧
      (handleDisconnecting (handleConnected m ⟨eventUIClickDisconnect, EvPayload.noPayload⟩).1
          ⟨eventSysDisconnectingDone, EvPayload.noPayload⟩).1.state
        = stateReadyDisconnected ∧
      (handleDisconnecting (handleConnected m ⟨eventUIClickDisconnect, EvPayload.noPayload⟩).1
          ⟨eventSysDisconnectingDone, EvPayload.noPayload⟩).1.pendingPF = false) := by
  constructor
  · unfold handleConnected handleDisconnecting mApplyProfileSelection payloadExitReason
      mTransition updateUIForState mEnterError
    simp [mTransition, updateUIForState, eventSysProcessExited, eventUISelectProfile,
      eventUIClickDisconnect, eventTrayDisconnect, eventSysTimeout,
      eventSysDisconnectingDone, hc, stateConnected, stateDisconnecting,
      stateReadyDisconnected, stateError, stateWaitingLogin, stateConnecting,
      errorKindProcessFailed, errorKindUnknown]
  · unfold handleConnected handleDisconnecting mApplyProfileSelection
      mTransition updateUIForState mEnterError
    simp [mTransition, updateUIForState, eventSysProcessExited, eventUISelectProfile,
      eventUIClickDisconnect, eventTrayDisconnect, eventSysTimeout,
      eventSysDisconnectingDone, hc, stateConnected, stateDisconnecting,
      stateReadyDisconnected, stateError, stateWaitingLogin, stateConnecting,
      errorKindProcessFailed, errorKindUnknown]

/-- C4 witness: the two disconnect flows instantiated at a concrete
Connected machine. -/
theorem claim_C4_witness :
    ((handleConnected machineConnectedFixture
        ⟨eventSysProcessExited, EvPayload.processExit "Core" 137 "exit status 137"⟩).1.state
        = stateDisconnecting ∧
      (handleConnected machineConnectedFixture
        ⟨eventSysProcessExited, EvPayload.processExit "Core" 137 "exit status 137"⟩).1.pendingPF
        = true ∧
      MCall.startDisconnecting ∈
        (handleConnected machineConnectedFixture
          ⟨eventSysProcessExited, EvPayload.processExit "Core" 137 "exit status 137"⟩).2 ∧
      (handleDisconnecting
          (handleConnected machineConnectedFixture
            ⟨eventSysProcessExited, EvPayload.processExit "Core" 137 "exit status 137"⟩).1
          ⟨eventSysDisconnectingDone, EvPayload.noPayload⟩).1.state = stateError ∧
      (handleDisconnecting
          (handleConnected machineConnectedFixture
            ⟨eventSysProcessExited, EvPayload.processExit "Core" 137 "exit status 137"⟩).1
          ⟨eventSysDisconnectingDone, EvPayload.noPayload⟩).1.pendingPF = false ∧
      (handleDisconnecting
          (handleConnected machineConnectedFixture
            ⟨eventSysProcessExited, EvPayload.processExit "Core" 137 "exit status 137"⟩).1
          ⟨eventSysDisconnectingDone, EvPayload.noPayload⟩).1.lastError =
        some ⟨errorKindProcessFailed, "Процесс завершился с ошибкой", "process crashed"⟩) ∧
    ((handleConnected machineConnectedFixture
        ⟨eventUIClickDisconnect, EvPayload.noPayload⟩).1.state = stateDisconnecting ∧
      (handleConnected machineConnectedFixture
        ⟨eventUIClickDisconnect, EvPayload.noPayload⟩).1.pendingPF = false ∧
      MCall.startDisconnecting ∈
        (handleConnected machineConnectedFixture
          ⟨eventUIClickDisconnect, EvPayload.noPayload⟩).2 ∧
      (handleDisconnecting
          (handleConnected machineConnectedFixture
            ⟨eventUIClickDisconnect, EvPayload.noPayload⟩).1
          ⟨eventSysDisconnectingDone, EvPayload.noPayload⟩).1.state
        = stateReadyDisconnected ∧
      (handleDisconnecting
          (handleConnected machineConnectedFixture
            ⟨eventUIClickDisconnect, EvPayload.noPayload⟩).1
          ⟨eventSysDisconnectingDone, EvPayload.noPayload⟩).1.pendingPF = false) :=
  claim_C4_process_exit_flow machineConnectedFixture "Core" 137 "exit status 137" rfl

/-- Helper: the formatted unavailable-server message is never empty. -/
theorem preflight_status_message_ne_empty (status : Int) :
    ("Управляющий сервер недоступен (код " ++ toString status ++ ")") ≠ "" := by
  intro h
  have hd := congrArg String.data h
  rw [String.data_append, String.data_append] at hd
  rcases List.append_eq_nil.mp hd with ⟨h12, h3⟩
  exact absurd h3 (by decide)

/-- Helper: every preflight failure payload carries a non-empty user
message. -/
theorem buildPreflightFailurePayload_message_ne_empty (err : Option HealthErr) :
    (buildPreflightFailurePayload err).message ≠ "" := by
  rcases err with _ | e
  · decide
  · rcases e with _ | ⟨kind, status, text⟩ | text
    · decide
    · unfold buildPreflightFailurePayload
      by_cases hk : kind ≠ "" <;> by_cases hs : (0 : Int) < status <;>
        simp only [hk, hs, if_true, if_false, ite_true, ite_false, if_pos, if_neg,
          not_true, not_false_iff] <;>
        first
          | exact preflight_status_message_ne_empty status
          | simp [hk, hs, preflight_status_message_ne_empty status]
    · exact (by decide :
        ("Нет связи с управляющим сервером. Повторим через 5 секунд" : String) ≠ "")

/-- C6: with the application not shutting down, preflight makes at most 3
health-check attempts, each under a 10 s deadline, sleeping 2 s between
consecutive attempts; the first success dispatches PreflightSuccess and
stops; only after all 3 attempts fail is exactly one PreflightFailure
dispatched, carrying a non-empty user message. -/
theorem claim_C6_preflight_attempts (env : PreflightEnv) (hstop : env.stopping = false) :
    (env.health 1 = none →
      startPreflightTrace env =
        [PreflightAction.attempt 10, PreflightAction.dispatchSuccess]) ∧
    (∀ e1, env.health 1 = some e1 → env.health 2 = none →
      startPreflightTrace env =
        [PreflightAction.attempt 10, PreflightAction.sleepDelay 2,
          PreflightAction.attempt 10, PreflightAction.dispatchSuccess]) ∧
    (∀ e1 e2, env.health 1 = some e1 → env.health 2 = some e2 → env.health 3 = none →
      startPreflightTrace env =
        [PreflightAction.attempt 10, PreflightAction.sleepDelay 2,
          PreflightAction.attempt 10, PreflightAction.sleepDelay 2,
          PreflightAction.attempt 10, PreflightAction.dispatchSuccess]) ∧
    (∀ e1 e2 e3, env.health 1 = some e1 → env.health 2 = some e2 → env.health 3 = some e3 →
      startPreflightTrace env =
        [PreflightAction.attempt 10, PreflightAction.sleepDelay 2,
          PreflightAction.attempt 10, PreflightAction.sleepDelay 2,
          PreflightAction.attempt 10,
          PreflightAction.dispatchFailure (buildPreflightFailurePayload (some e3))] ∧
      (buildPreflightFailurePayload (some e3)).message ≠ "") := by
  refine ⟨?_, ?_, ?_, ?_⟩
  · intro h1
    simp [startPreflightTrace, preflightAttempts, preflightFrom, hstop, h1]
  · intro e1 h1 h2
    simp [startPreflightTrace, preflightAttempts, preflightFrom, hstop, h1, h2]
  · intro e1 e2 h1 h2 h3
    simp [startPreflightTrace, preflightAttempts, preflightFrom, hstop, h1, h2, h3]
  · intro e1 e2 e3 h1 h2 h3
    refine ⟨?_, buildPreflightFailurePayload_message_ne_empty (some e3)⟩
    simp [startPreflightTrace, preflightAttempts, preflightFrom, hstop, h1, h2, h3]

/-- C6 witness: the up and the always-down preflight environments. -/
theorem claim_C6_witness :
    startPreflightTrace preflightUpEnv =
      [PreflightAction.attempt 10, PreflightAction.dispatchSuccess] ∧
    (startPreflightTrace preflightDownEnv =
      [PreflightAction.attempt 10, PreflightAction.sleepDelay 2,
        PreflightAction.attempt 10, PreflightAction.sleepDelay 2,
        PreflightAction.attempt 10,
        PreflightAction.dispatchFailure
          (buildPreflightFailurePayload (some (HealthErr.otherErr "connection refused")))] ∧
      (buildPreflightFailurePayload (some (HealthErr.otherErr "connection refused"))).message
        ≠ "") :=
  ⟨(claim_C6_preflight_attempts preflightUpEnv rfl).1 rfl,
    (claim_C6_preflight_attempts preflightDownEnv rfl).2.2.2
      (HealthErr.otherErr "connection refused") (HealthErr.otherErr "connection refused")
      (HealthErr.otherErr "connection refused") rfl rfl rfl⟩
/-- Helper: addRoutesLoop appends the same list of new records to the OS
route table and the artifact journal, leaves firewall rules, core state,
config flag and default gateway untouched, and every new record carries
the gateway ip and a non-empty destination. -/
theorem addRoutesLoop_shape (env : ConnectEnv) (gw : GatewayInfo) (kind : String)
    (cidrs : List String) : ∀ s : ConnState,
    ∃ added : List RouteRecord,
      (addRoutesLoop env gw kind s cidrs).1.art.routes = s.art.routes ++ added ∧
      (addRoutesLoop env gw kind s cidrs).1.world.osRoutes = s.world.osRoutes ++ added ∧
      (addRoutesLoop env gw kind s cidrs).1.art.killSwitchRules = s.art.killSwitchRules ∧
      (addRoutesLoop env gw kind s cidrs).1.art.coreStarted = s.art.coreStarted ∧
      (addRoutesLoop env gw kind s cidrs).1.world.fwRules = s.world.fwRules ∧
      (addRoutesLoop env gw kind s cidrs).1.world.coreRunning = s.world.coreRunning ∧
      (addRoutesLoop env gw kind s cidrs).1.world.configWritten = s.world.configWritten ∧
      (addRoutesLoop env gw kind s cidrs).1.ctx.defaultGateway = s.ctx.defaultGateway ∧
      (∀ r ∈ added, r.gateway = gw.ip ∧ r.destination ≠ "") := by
  induction cidrs with
  | nil =>
    intro s
    exact ⟨[], by simp [addRoutesLoop]⟩
  | cons c rest ih =>
    intro s
    unfold addRoutesLoop
    by_cases hc : goTrimSpace c = ""
    · simpa [hc] using ih s
    · by_cases ha : env.addRouteOk s.nextId = true
      · obtain ⟨added, h1, h2, h3, h4, h5, h6, h7, h8, h9⟩ := ih
          { s with
            world := { s.world with osRoutes := s.world.osRoutes ++ [mkAddedRoute (goTrimSpace c) gw kind s.nextId] }
            ctx := { s.ctx with routesRegistry := registryUpsert s.ctx.routesRegistry (mkAddedRoute (goTrimSpace c) gw kind s.nextId) }
            art := { s.art with routes := s.art.routes ++ [mkAddedRoute (goTrimSpace c) gw kind s.nextId] }
            nextId := s.nextId + 1 }
        refine ⟨mkAddedRoute (goTrimSpace c) gw kind s.nextId :: added,
          ?_, ?_, ?_, ?_, ?_, ?_, ?_, ?_, ?_⟩
        · simp only [hc, ha, if_neg, if_pos, ite_false, ite_true] at h1 ⊢
          simp [h1]
        · simp only [hc, ha, ite_false, ite_true] at h2 ⊢
          simp [h2]
        · simp only [hc, ha, ite_false, ite_true] at h3 ⊢
          simp [h3]
        · simp only [hc, ha, ite_false, ite_true] at h4 ⊢
          simp [h4]
        · simp only [hc, ha, ite_false, ite_true] at h5 ⊢
          simp [h5]
        · simp only [hc, ha, ite_false, ite_true] at h6 ⊢
          simp [h6]
        · simp only [hc, ha, ite_false, ite_true] at h7 ⊢
          simp [h7]
        · simp only [hc, ha, ite_false, ite_true] at h8 ⊢
          simp [h8]
        · intro r hr
          rcases List.mem_cons.mp hr with rfl | hmem
          · exact ⟨rfl, hc⟩
          · exact h9 r hmem
      · refine ⟨[], ?_⟩
        simp [hc, ha]

/-- Helper: a string with a non-empty trim is itself non-empty. -/
theorem goTrimSpace_ne_empty {x : String} (h : goTrimSpace x ≠ "") : x ≠ "" := by
  intro he
  subst he
  exact h rfl

/-- Helper: when every route.exe ADD succeeds the loop reports no error. -/
theorem addRoutesLoop_none (env : ConnectEnv) (hadd : ∀ n, env.addRouteOk n = true)
    (gw : GatewayInfo) (kind : String) (cidrs : List String) :
    ∀ s : ConnState, (addRoutesLoop env gw kind s cidrs).2.2 = none := by
  induction cidrs with
  | nil => intro s; simp [addRoutesLoop]
  | cons c rest ih =>
    intro s
    unfold addRoutesLoop
    by_cases hc : goTrimSpace c = ""
    · simpa [hc] using ih s
    · simp [hc, hadd s.nextId]
      exact ih _

/-- Helper: route removal never touches the artifact journal. -/
theorem removeRouteRecordM_art (env : ConnectEnv) (s : ConnState) (r : RouteRecord) :
    (removeRouteRecordM env s r).1.art = s.art := by
  unfold removeRouteRecordM
  rcases routeManagerRemoveRoute env.maskOfCidr r with e | args
  · rfl
  · by_cases h : env.removeRouteOk r = true <;> simp [h]

/-- Helper: the rollback route sweep never touches the artifact journal. -/
theorem rollbackRoutes_art (env : ConnectEnv) (rs : List RouteRecord) :
    ∀ s : ConnState, (rollbackRoutes env s rs).1.art = s.art := by
  induction rs with
  | nil => intro s; rfl
  | cons r rest ih =>
    intro s
    unfold rollbackRoutes
    rw [ih]
    exact removeRouteRecordM_art env s r

/-- Helper: rollback never touches the artifact journal it replays. -/
theorem connectRollback_art (env : ConnectEnv) (s : ConnState) :
    (connectRollback env s).1.art = s.art := by
  unfold connectRollback removeKillSwitchM
  by_cases h1 : s.art.coreStarted = true <;>
    by_cases h2 : s.art.killSwitchRules.isEmpty = true <;>
      by_cases h3 : env.removeRulesOk = true <;>
        simp [h1, h2, h3, rollbackRoutes_art]


/-- Helper: for a record with non-empty destination and gateway the
RemoveRoute guard passes and the DELETE arguments are issued. -/
theorem routeManagerRemoveRoute_ok (maskOf : String → Option String) (r : RouteRecord)
    (hd : r.destination ≠ "") (hg : r.gateway ≠ "") :
    routeManagerRemoveRoute maskOf r = Except.ok (routeDeleteArgs maskOf r) := by
  have h : ∃ args, routeManagerRemoveRoute maskOf r = Except.ok args := by
    unfold routeManagerRemoveRoute
    rw [if_neg hd, if_neg (by simp [hg])]
    exact ⟨_, rfl⟩
  rcases h with ⟨args, h⟩
  rw [h]
  unfold routeDeleteArgs
  rw [h]

/-- Helper: successful removal of a guard-passing record erases the OS
route and the registry entry and issues one DELETE command. -/
theorem removeRouteRecordM_ok (env : ConnectEnv) (s : ConnState) (r : RouteRecord)
    (hd : r.destination ≠ "") (hg : r.gateway ≠ "") (hrem : env.removeRouteOk r = true) :
    removeRouteRecordM env s r =
      ({ s with
          world := { s.world with osRoutes := s.world.osRoutes.erase r }
          ctx := { s.ctx with routesRegistry := registryRemove s.ctx.routesRegistry r.id } },
        [ConnCall.removeRouteCall (routeDeleteArgs env.maskOfCidr r)], true) := by
  unfold removeRouteRecordM
  rw [routeManagerRemoveRoute_ok env.maskOfCidr r hd hg]
  simp [hrem]

/-- Helper: sweeping the journalled routes in reverse add-order removes
exactly the appended records from the OS table, touching nothing else,
and issues one DELETE per record. -/
theorem rollbackRoutes_restore (env : ConnectEnv)
    (hrem : ∀ r, env.removeRouteOk r = true) (adds : List RouteRecord) :
    ∀ (s : ConnState) (base : List RouteRecord),
    s.world.osRoutes = base ++ adds →
    (∀ r ∈ adds, r.destination ≠ "" ∧ r.gateway ≠ "") →
    (∀ r ∈ adds, r ∉ base) →
    adds.Nodup →
    (rollbackRoutes env s adds.reverse).1.world.osRoutes = base ∧
    (rollbackRoutes env s adds.reverse).1.world.fwRules = s.world.fwRules ∧
    (rollbackRoutes env s adds.reverse).1.world.coreRunning = s.world.coreRunning ∧
    (rollbackRoutes env s adds.reverse).1.world.configWritten = s.world.configWritten ∧
    (rollbackRoutes env s adds.reverse).2 =
      adds.reverse.map (fun r => ConnCall.removeRouteCall (routeDeleteArgs env.maskOfCidr r)) := by
  induction adds using List.reverseRecOn with
  | nil =>
    intro s base hos _ _ _
    simp [rollbackRoutes]
    simpa using hos
  | append_singleton as a ih =>
    intro s base hos hcond hfresh hnodup
    have hrev : (as ++ [a]).reverse = a :: as.reverse := by simp
    rw [hrev]
    unfold rollbackRoutes
    have hda : a.destination ≠ "" := (hcond a (by simp)).1
    have hga : a.gateway ≠ "" := (hcond a (by simp)).2
    have hstep := removeRouteRecordM_ok env s a hda hga (hrem a)
    rw [hstep]
    have hnotmem_as : a ∉ as := by
      have hd := (List.nodup_append.mp hnodup).2.2
      intro hmem
      exact hd hmem (by simp)
    have hnotmem_base : a ∉ base := hfresh a (by simp)
    have herase : (s.world.osRoutes).erase a = base ++ as := by
      rw [hos, ← List.append_assoc]
      rw [List.erase_append_right _ (by
        intro hmem
        rcases List.mem_append.mp hmem with h | h
        · exact hnotmem_base h
        · exact hnotmem_as h)]
      simp
    have ihres := ih ({ s with
        world := { s.world with osRoutes := s.world.osRoutes.erase a }
        ctx := { s.ctx with routesRegistry := registryRemove s.ctx.routesRegistry a.id } })
      base (by simpa using herase)
      (fun r hr => hcond r (by simp [hr]))
      (fun r hr => hfresh r (by simp [hr]))
      (List.Nodup.of_append_left hnodup)
    rcases ihres with ⟨i1, i2, i3, i4, i5⟩
    refine ⟨by simpa using i1, by simpa using i2, by simpa using i3, by simpa using i4, ?_⟩
    simp only [i5]
    simp

/-- Helper: under the connect invariant, with fresh distinct journal
entries and successful removal effectors, rollback returns the observable
world to its pre-connect value except for the written config file, with
the stop-core, remove-rules, reverse-route-removal trace. -/
theorem connectRollback_restores (env : ConnectEnv) (s0 s : ConnState)
    (hInv : ConnInv s0 s)
    (hfreshR : ∀ r ∈ s.art.routes, r ∉ s0.world.osRoutes)
    (hnodupR : s.art.routes.Nodup)
    (hfreshF : ∀ nm ∈ s0.world.fwRules, nm ∉ s.art.killSwitchRules)
    (hrem : ∀ r, env.removeRouteOk r = true)
    (hrules : env.removeRulesOk = true)
    (hcore0 : s0.world.coreRunning = false) :
    (connectRollback env s).1.world.osRoutes = s0.world.osRoutes ∧
    (connectRollback env s).1.world.fwRules = s0.world.fwRules ∧
    (connectRollback env s).1.world.coreRunning = false ∧
    (connectRollback env s).1.world.configWritten = s.world.configWritten ∧
    (connectRollback env s).2 =
      (if s.art.coreStarted then [ConnCall.stopCoreCall 5] else []) ++
      (if s.art.killSwitchRules.isEmpty then []
        else [ConnCall.removeRulesCall s.art.killSwitchRules]) ++
      s.art.routes.reverse.map
        (fun r => ConnCall.removeRouteCall (routeDeleteArgs env.maskOfCidr r)) := by
  obtain ⟨hos, hfw, hcore, hroutes⟩ := hInv
  unfold connectRollback
  -- stage 1: stop core
  set p1 : ConnState × List ConnCall :=
    (if s.art.coreStarted then
      ({ s with world := { s.world with coreRunning := false } }, [ConnCall.stopCoreCall 5])
    else (s, [])) with hp1
  have hp1art : p1.1.art = s.art := by
    rw [hp1]; by_cases h : s.art.coreStarted <;> simp [h]
  have hp1os : p1.1.world.osRoutes = s.world.osRoutes := by
    rw [hp1]; by_cases h : s.art.coreStarted <;> simp [h]
  have hp1fw : p1.1.world.fwRules = s.world.fwRules := by
    rw [hp1]; by_cases h : s.art.coreStarted <;> simp [h]
  have hp1cw : p1.1.world.configWritten = s.world.configWritten := by
    rw [hp1]; by_cases h : s.art.coreStarted <;> simp [h]
  have hp1core : p1.1.world.coreRunning = false := by
    rw [hp1]
    by_cases h : s.art.coreStarted = true
    · simp [h]
    · have hb : s.art.coreStarted = false := by
        revert h; cases s.art.coreStarted <;> simp
      simp [hb, hcore, hcore0]
  have hp1tr : p1.2 = (if s.art.coreStarted then [ConnCall.stopCoreCall 5] else []) := by
    rw [hp1]; by_cases h : s.art.coreStarted <;> simp [h]
  -- stage 2: remove the kill-switch rules of this attempt
  set p2 : ConnState × List ConnCall :=
    (if p1.1.art.killSwitchRules.isEmpty then (p1.1, [])
      else removeKillSwitchM env p1.1 p1.1.art.killSwitchRules) with hp2
  have hfwsplit : List.filter (fun n => !decide (n ∈ s.art.killSwitchRules))
      s.world.fwRules = s0.world.fwRules := by
    rw [hfw, List.filter_append]
    have h1 : List.filter (fun n => !decide (n ∈ s.art.killSwitchRules))
        s0.world.fwRules = s0.world.fwRules := by
      apply List.filter_eq_self.mpr
      intro x hx
      simp [hfreshF x hx]
    have h2 : List.filter (fun n => !decide (n ∈ s.art.killSwitchRules))
        s.art.killSwitchRules = [] := by
      apply List.filter_eq_nil_iff.mpr
      intro x hx
      simp [hx]
    rw [h1, h2, List.append_nil]
  have hp2art : p2.1.art = s.art := by
    rw [hp2]
    by_cases hk : s.art.killSwitchRules = []
    · simp [hp1art, hk]
    · unfold removeKillSwitchM
      simp [hp1art, hk, hrules]
  have hp2os : p2.1.world.osRoutes = s.world.osRoutes := by
    rw [hp2]
    by_cases hk : s.art.killSwitchRules = []
    · simp [hp1art, hk, hp1os]
    · unfold removeKillSwitchM
      simp [hp1art, hk, hrules, hp1os]
  have hp2fw : p2.1.world.fwRules = s0.world.fwRules := by
    rw [hp2]
    by_cases hk : s.art.killSwitchRules = []
    · simp [hp1art, hk, hp1fw, hfw]
    · unfold removeKillSwitchM
      simp [hp1art, hk, hrules, hp1fw, hfwsplit]
  have hp2core : p2.1.world.coreRunning = false := by
    rw [hp2]
    by_cases hk : s.art.killSwitchRules = []
    · simp [hp1art, hk, hp1core]
    · unfold removeKillSwitchM
      simp [hp1art, hk, hrules, hp1core]
  have hp2cw : p2.1.world.configWritten = s.world.configWritten := by
    rw [hp2]
    by_cases hk : s.art.killSwitchRules = []
    · simp [hp1art, hk, hp1cw]
    · unfold removeKillSwitchM
      simp [hp1art, hk, hrules, hp1cw]
  have hp2tr : p2.2 = (if s.art.killSwitchRules.isEmpty then []
      else [ConnCall.removeRulesCall s.art.killSwitchRules]) := by
    rw [hp2]
    by_cases hk : s.art.killSwitchRules = []
    · simp [hp1art, hk]
    · unfold removeKillSwitchM
      simp [hp1art, hk, hrules]
  -- stage 3: remove the journalled routes in reverse add-order
  have hadds_os : p2.1.world.osRoutes = s0.world.osRoutes ++ s.art.routes := by
    rw [hp2os, hos]
  have hconds : ∀ r ∈ s.art.routes, r.destination ≠ "" ∧ r.gateway ≠ "" := by
    intro r hr
    exact ⟨(hroutes r hr).2, (hroutes r hr).1⟩
  have h3 := rollbackRoutes_restore env hrem s.art.routes p2.1 s0.world.osRoutes
    hadds_os hconds hfreshR hnodupR
  rcases h3 with ⟨r1, r2, r3, r4, r5⟩
  dsimp only
  rw [hp2art]
  refine ⟨r1, by rw [r2, hp2fw], by rw [r3, hp2core], by rw [r4, hp2cw], ?_⟩
  rw [hp1tr, hp2tr, r5]

/-- Helper: the invariant holds reflexively for an empty journal. -/
theorem ConnInv_refl_empty (s0 : ConnState) (h0 : s0.art = ⟨[], false, []⟩) :
    ConnInv s0 s0 := by
  refine ⟨?_, ?_, ?_, ?_⟩ <;> simp [h0]

/-- Helper: the invariant ignores AppContext-only updates. -/
theorem ConnInv_ctx_update (s0 s : ConnState) (h : ConnInv s0 s) (c : ConnCtx) :
    ConnInv s0 { s with ctx := c } := h

/-- Helper: adding profile routes through a gateway with a non-blank ip
preserves the connect invariant. -/
theorem ConnInv_addRoutesLoop (env : ConnectEnv) (s0 s : ConnState) (gw : GatewayInfo)
    (kind : String) (cidrs : List String) (h : ConnInv s0 s)
    (hip : goTrimSpace gw.ip ≠ "") :
    ConnInv s0 (addRoutesLoop env gw kind s cidrs).1 := by
  obtain ⟨hos, hfw, hcore, hconds⟩ := h
  obtain ⟨added, a1, a2, a3, a4, a5, a6, a7, a8, a9⟩ :=
    addRoutesLoop_shape env gw kind cidrs s
  refine ⟨?_, ?_, ?_, ?_⟩
  · rw [a2, a1, hos, List.append_assoc]
  · rw [a5, a3, hfw]
  · rw [a6, a4, hcore]
  · intro r hr
    rw [a1] at hr
    rcases List.mem_append.mp hr with hmem | hmem
    · exact hconds r hmem
    · obtain ⟨hg, hd⟩ := a9 r hmem
      exact ⟨by rw [hg]; exact goTrimSpace_ne_empty hip, hd⟩

/-- Helper: the kill-switch step preserves the connect invariant. -/
theorem ConnInv_applyKillSwitch (env : ConnectEnv) (s0 s : ConnState)
    (h : ConnInv s0 s) : ConnInv s0 (applyKillSwitch env s).1 := by
  obtain ⟨hos, hfw, hcore, hconds⟩ := h
  unfold applyKillSwitch
  rcases hdg : s.ctx.defaultGateway with _ | gw
  · exact ⟨hos, hfw, hcore, hconds⟩
  · by_cases hif : goTrimSpace gw.interfaceName = ""
    · simp [hif]
      exact ⟨hos, hfw, hcore, hconds⟩
    · rcases hb : env.blockDNS with e | rules
      · simp [hif, hb]
        exact ⟨hos, hfw, hcore, hconds⟩
      · simp [hif, hb]
        refine ⟨hos, ?_, hcore, hconds⟩
        rw [hfw, List.append_assoc]

/-- Helper: writing the core config preserves the connect invariant. -/
theorem ConnInv_writeCoreConfigM (env : ConnectEnv) (server : ServerM)
    (s0 s : ConnState) (h : ConnInv s0 s) :
    ConnInv s0 (writeCoreConfigM env server s).1 := by
  obtain ⟨hos, hfw, hcore, hconds⟩ := h
  unfold writeCoreConfigM
  by_cases hcc : server.coreConfigRaw = ""
  · simp [hcc]
    exact ⟨hos, hfw, hcore, hconds⟩
  · by_cases hw : env.writeOk = true <;> simp [hcc, hw] <;>
      exact ⟨hos, hfw, hcore, hconds⟩

/-- Helper: every run of executeConnecting starting from a fresh journal
satisfies the connect invariant at its final state, wherever it stops. -/
theorem executeConnecting_inv (env : ConnectEnv) (cfg : AppConfig) (s0 : ConnState)
    (h0 : s0.art = ⟨[], false, []⟩) :
    ConnInv s0 (executeConnecting env cfg s0).1 := by
  have hbase := ConnInv_refl_empty s0 h0
  unfold executeConnecting
  rcases hdg : env.detectGateway with e | gateway
  · exact hbase
  · dsimp only
    have hInv1 : ConnInv s0 { s0 with ctx := { s0.ctx with defaultGateway := some gateway } } :=
      hbase
    rcases hfs : findServer s0.ctx.serversList s0.ctx.selectedServerID with _ | server
    · dsimp only
      exact hInv1
    · dsimp only
      split
      · exact hInv1
      · split
        · exact hInv1
        · rcases hfp : findRouteProfile s0.ctx.routesProfiles s0.ctx.selectedProfileID
            with _ | profile
          · dsimp only
            exact hInv1
          · dsimp only
            unfold addProfileRoutes
            dsimp only
            by_cases hip : goTrimSpace gateway.ip = ""
            · rw [if_pos hip]
              dsimp only
              exact hInv1
            · rw [if_neg hip]
              have hInvT1 := ConnInv_addRoutesLoop env s0 _ gateway routeKindDirect
                profile.directRoutes hInv1 hip
              split
              · dsimp only
                exact hInvT1
              · have hInvT2 := ConnInv_applyKillSwitch env s0 _ hInvT1
                split
                · dsimp only
                  exact hInvT2
                · have hInvT3 := ConnInv_writeCoreConfigM env server s0 _ hInvT2
                  split
                  · dsimp only
                    exact hInvT3
                  · split
                    · dsimp only
                      exact hInvT3
                    · split
                      · -- launch succeeded
                        set t3s : ConnState :=
                          (writeCoreConfigM env server
                            (applyKillSwitch env
                              (addRoutesLoop env gateway routeKindDirect
                                { s0 with ctx :=
                                  { s0.ctx with defaultGateway := some gateway } }
                                profile.directRoutes).1).1).1 with ht3
                        have hInvS5 : ConnInv s0 { t3s with
                            world := { t3s.world with coreRunning := true }
                            art := { t3s.art with coreStarted := true } } := by
                          obtain ⟨hos, hfw, hcore, hconds⟩ := hInvT3
                          exact ⟨hos, hfw, by simp, hconds⟩
                        split
                        · dsimp only
                          exact hInvS5
                        · rename_i tunnelGw
                          split
                          · dsimp only
                            exact hInvS5
                          · split
                            · dsimp only
                              exact hInvS5
                            · rename_i hip2
                              exact ConnInv_addRoutesLoop env s0 _ _
                                routeKindTunnel profile.tunnelRoutes hInvS5 hip2
                      · dsimp only
                        exact hInvT3

/-- C1: for every run of the Connect scenario in which some step fails
(under the natural adequacy conditions: the routes this attempt added
were not already present and are pairwise distinct, the attempt-installed
rule names are fresh, the removal effectors succeed, and the core was not
already running), rollback runs before the failure is surfaced - stop
core (5 s) if started, remove the installed kill-switch rules, remove the
journalled routes in reverse add-order - the observable side-effect set
(OS routes, firewall rules, core process) returns to its pre-Connect
value with only the written config file exempt, and one
ConnectingFailure event carrying the scenario error is dispatched last. -/
theorem claim_C1_rollback_restores (env : ConnectEnv) (cfg : AppConfig)
    (ctx0 : ConnCtx) (w0 : World) (err : ScenErr)
    (hstop : env.stopping = false)
    (hfail : (executeConnecting env cfg ⟨ctx0, w0, ⟨[], false, []⟩, 0⟩).2.2 = some err)
    (hfreshR : ∀ r ∈ (executeConnecting env cfg ⟨ctx0, w0, ⟨[], false, []⟩, 0⟩).1.art.routes,
      r ∉ w0.osRoutes)
    (hnodupR : (executeConnecting env cfg ⟨ctx0, w0, ⟨[], false, []⟩, 0⟩).1.art.routes.Nodup)
    (hfreshF : ∀ nm ∈ w0.fwRules,
      nm ∉ (executeConnecting env cfg ⟨ctx0, w0, ⟨[], false, []⟩, 0⟩).1.art.killSwitchRules)
    (hrem : ∀ r, env.removeRouteOk r = true)
    (hrules : env.removeRulesOk = true)
    (hcore0 : w0.coreRunning = false) :
    (startConnecting env cfg ctx0 w0).1.world.osRoutes = w0.osRoutes ∧
    (startConnecting env cfg ctx0 w0).1.world.fwRules = w0.fwRules ∧
    (startConnecting env cfg ctx0 w0).1.world.coreRunning = false ∧
    (startConnecting env cfg ctx0 w0).1.world.configWritten =
      (executeConnecting env cfg ⟨ctx0, w0, ⟨[], false, []⟩, 0⟩).1.world.configWritten ∧
    (startConnecting env cfg ctx0 w0).2 =
      (executeConnecting env cfg ⟨ctx0, w0, ⟨[], false, []⟩, 0⟩).2.1 ++
      ((if (executeConnecting env cfg ⟨ctx0, w0, ⟨[], false, []⟩, 0⟩).1.art.coreStarted
          then [ConnCall.stopCoreCall 5] else []) ++
        (if (executeConnecting env cfg ⟨ctx0, w0, ⟨[], false, []⟩, 0⟩).1.art.killSwitchRules.isEmpty
          then []
          else [ConnCall.removeRulesCall
            (executeConnecting env cfg ⟨ctx0, w0, ⟨[], false, []⟩, 0⟩).1.art.killSwitchRules]) ++
        (executeConnecting env cfg ⟨ctx0, w0, ⟨[], false, []⟩, 0⟩).1.art.routes.reverse.map
          (fun r => ConnCall.removeRouteCall (routeDeleteArgs env.maskOfCidr r))) ++
      [ConnCall.dispatchConnectingFailure
        (if err.kind = "" then errorKindProcessFailed else err.kind)
        (if err.message = "" then defaultConnectFailMessage else err.message)] := by
  have hInv := executeConnecting_inv env cfg ⟨ctx0, w0, ⟨[], false, []⟩, 0⟩ rfl
  have hR := connectRollback_restores env ⟨ctx0, w0, ⟨[], false, []⟩, 0⟩
    (executeConnecting env cfg ⟨ctx0, w0, ⟨[], false, []⟩, 0⟩).1 hInv
    hfreshR hnodupR hfreshF hrem hrules hcore0
  rcases hR with ⟨r1, r2, r3, r4, r5⟩
  unfold startConnecting
  rw [if_neg (by rw [hstop]; exact Bool.noConfusion)]
  dsimp only
  rw [hfail]
  dsimp only
  exact ⟨r1, r2, r3, r4, by rw [r5]; simp [defaultConnectFailMessage, List.append_assoc]⟩

/-- Helper: writing the core config never touches the artifact journal. -/
theorem writeCoreConfigM_art (env : ConnectEnv) (server : ServerM) (s : ConnState) :
    (writeCoreConfigM env server s).1.art = s.art := by
  unfold writeCoreConfigM
  by_cases hcc : server.coreConfigRaw = ""
  · simp [hcc]
  · by_cases hw : env.writeOk = true <;> simp [hcc, hw]

/-- Helper: the route-add loop never touches the journalled rule names. -/
theorem addRoutesLoop_killSwitchRules (env : ConnectEnv) (g : GatewayInfo)
    (kind : String) (cidrs : List String) (s : ConnState) :
    (addRoutesLoop env g kind s cidrs).1.art.killSwitchRules = s.art.killSwitchRules := by
  obtain ⟨added, a1, a2, a3, a4, a5, a6, a7, a8, a9⟩ :=
    addRoutesLoop_shape env g kind cidrs s
  exact a3

/-- C2 (amended): in every Connect run that reaches the kill-switch step
(gateway probed, server and profile resolved, direct routes added) whose
BlockDNSOnInterface call succeeds, the DNS-block rules are installed on
the default-gateway interface and their names journalled REGARDLESS of
any kill-switch flag value: the killSwitchFlag parameter is not consulted
anywhere, the scenario code has no such input. -/
theorem claim_C2_killswitch_unconditional (killSwitchFlag : Bool) (env : ConnectEnv)
    (cfg : AppConfig) (ctx0 : ConnCtx) (w0 : World) (gw : GatewayInfo) (server : ServerM)
    (profile : RouteProfileM) (rules : List String)
    (hstop : env.stopping = false)
    (hgw : env.detectGateway = Except.ok gw)
    (hsrv : findServer ctx0.serversList ctx0.selectedServerID = some server)
    (hhost : goTrimSpace server.host ≠ "")
    (hport : ¬ server.port ≤ 0)
    (hprof : findRouteProfile ctx0.routesProfiles ctx0.selectedProfileID = some profile)
    (hadd : ∀ n, env.addRouteOk n = true)
    (hip : goTrimSpace gw.ip ≠ "")
    (hiface : goTrimSpace gw.interfaceName ≠ "")
    (hblock : env.blockDNS = Except.ok rules) :
    ConnCall.blockDNSCall gw.interfaceName ∈ (startConnecting env cfg ctx0 w0).2 ∧
    (startConnecting env cfg ctx0 w0).1.art.killSwitchRules = rules := by
  have hexec :
      (executeConnecting env cfg ⟨ctx0, w0, ⟨[], false, []⟩, 0⟩).1.art.killSwitchRules = rules ∧
      ConnCall.blockDNSCall gw.interfaceName ∈
        (executeConnecting env cfg ⟨ctx0, w0, ⟨[], false, []⟩, 0⟩).2.1 := by
    unfold executeConnecting
    rw [hgw]
    dsimp only
    rw [hsrv]
    dsimp only
    rw [if_neg hhost, if_neg hport, hprof]
    dsimp only
    unfold addProfileRoutes
    dsimp only
    rw [if_neg hip]
    rw [addRoutesLoop_none env hadd gw routeKindDirect profile.directRoutes]
    dsimp only
    obtain ⟨added, a1, a2, a3, a4, a5, a6, a7, a8, a9⟩ :=
      addRoutesLoop_shape env gw routeKindDirect profile.directRoutes
        ⟨{ ctx0 with defaultGateway := some gw }, w0, ⟨[], false, []⟩, 0⟩
    unfold applyKillSwitch
    have a8s : (addRoutesLoop env gw routeKindDirect
        ⟨{ ctx0 with defaultGateway := some gw }, w0, ⟨[], false, []⟩, 0⟩
        profile.directRoutes).1.ctx.defaultGateway = some gw := by rw [a8]
    rw [a8s]
    dsimp only
    rw [if_neg hiface, hblock]
    dsimp only
    set t1s : ConnState := (addRoutesLoop env gw routeKindDirect
      ⟨{ ctx0 with defaultGateway := some gw }, w0, ⟨[], false, []⟩, 0⟩
      profile.directRoutes).1 with ht1
    have a3e : t1s.art.killSwitchRules = [] := by
      rw [a3]
    constructor
    · split <;> try split
      all_goals try split
      all_goals try split
      all_goals try split
      all_goals try split
      all_goals dsimp only
      all_goals simp [writeCoreConfigM_art, a3e, addRoutesLoop_killSwitchRules]
    · split <;> try split
      all_goals try split
      all_goals try split
      all_goals try split
      all_goals try split
      all_goals dsimp only
      all_goals simp
  obtain ⟨hks, hmem⟩ := hexec
  unfold startConnecting
  rw [if_neg (by rw [hstop]; exact Bool.noConfusion)]
  dsimp only
  rcases hres : (executeConnecting env cfg ⟨ctx0, w0, ⟨[], false, []⟩, 0⟩).2.2 with _ | err2
  · dsimp only
    exact ⟨by simp [hmem], hks⟩
  · dsimp only
    refine ⟨by simp [hmem], ?_⟩
    rw [connectRollback_art]
    exact hks

/-- C2 counterexample: a complete successful Connect run over a concrete
environment installs and journals the two DNS-block rules although the
scenario's kill-switch flag (a free parameter of the run, since the
route-profile model carries no kill_switch field) is false — refuting
"installed if and only if the selected profile's kill_switch flag is
true" at this concrete input. -/
theorem claim_C2_counterexample :
    killSwitchFlagFixture = false ∧
    (startConnecting connectEnvFixture connectCfgFixture connectCtxFixture
        connectWorldFixture).1.art.killSwitchRules =
      ["CustomVPN KillSwitch DNS UDP", "CustomVPN KillSwitch DNS TCP"] ∧
    ¬ ((startConnecting connectEnvFixture connectCfgFixture connectCtxFixture
        connectWorldFixture).1.art.killSwitchRules ≠ [] ↔ killSwitchFlagFixture = true) := by
  refine ⟨rfl, by decide, ?_⟩
  intro h
  exact absurd (h.mp (by decide)) (by decide)

/-- C2 witness: the unconditional-installation theorem instantiated at the
all-succeeding fixture run. -/
theorem claim_C2_witness :
    ConnCall.blockDNSCall "Ethernet" ∈
      (startConnecting connectEnvFixture connectCfgFixture connectCtxFixture
        connectWorldFixture).2 ∧
    (startConnecting connectEnvFixture connectCfgFixture connectCtxFixture
        connectWorldFixture).1.art.killSwitchRules =
      ["CustomVPN KillSwitch DNS UDP", "CustomVPN KillSwitch DNS TCP"] :=
  claim_C2_killswitch_unconditional killSwitchFlagFixture connectEnvFixture
    connectCfgFixture connectCtxFixture connectWorldFixture
    ⟨"192.168.1.1", 12, "Ethernet", 25⟩
    ⟨"s1", "FR 1 prod", "FR", "1.2.3.4", 443, "cfgbytes"⟩
    ⟨"p1", "Default", ["10.0.0.0/8"], ["0.0.0.0/0"]⟩
    ["CustomVPN KillSwitch DNS UDP", "CustomVPN KillSwitch DNS TCP"]
    rfl rfl (by decide) (by decide) (by decide) (by decide) (fun _ => rfl)
    (by decide) (by decide) rfl

/-- C1 witness: the rollback theorem instantiated at a run whose second
direct route fails: the one added route is removed again, the world is
back to its pristine pre-connect value, and the RoutingFailed event names
the failing CIDR. -/
theorem claim_C1_witness :
    (startConnecting rollbackEnvFixture rollbackCfgFixture rollbackCtxFixture
        rollbackWorldFixture).1.world.osRoutes = rollbackWorldFixture.osRoutes ∧
    (startConnecting rollbackEnvFixture rollbackCfgFixture rollbackCtxFixture
        rollbackWorldFixture).1.world.fwRules = rollbackWorldFixture.fwRules ∧
    (startConnecting rollbackEnvFixture rollbackCfgFixture rollbackCtxFixture
        rollbackWorldFixture).1.world.coreRunning = false ∧
    (startConnecting rollbackEnvFixture rollbackCfgFixture rollbackCtxFixture
        rollbackWorldFixture).1.world.configWritten =
      (executeConnecting rollbackEnvFixture rollbackCfgFixture
        ⟨rollbackCtxFixture, rollbackWorldFixture, ⟨[], false, []⟩, 0⟩).1.world.configWritten ∧
    (startConnecting rollbackEnvFixture rollbackCfgFixture rollbackCtxFixture
        rollbackWorldFixture).2 =
      (executeConnecting rollbackEnvFixture rollbackCfgFixture
        ⟨rollbackCtxFixture, rollbackWorldFixture, ⟨[], false, []⟩, 0⟩).2.1 ++
      ((if (executeConnecting rollbackEnvFixture rollbackCfgFixture
            ⟨rollbackCtxFixture, rollbackWorldFixture, ⟨[], false, []⟩, 0⟩).1.art.coreStarted
          then [ConnCall.stopCoreCall 5] else []) ++
        (if (executeConnecting rollbackEnvFixture rollbackCfgFixture
            ⟨rollbackCtxFixture, rollbackWorldFixture,
              ⟨[], false, []⟩, 0⟩).1.art.killSwitchRules.isEmpty
          then []
          else [ConnCall.removeRulesCall
            (executeConnecting rollbackEnvFixture rollbackCfgFixture
              ⟨rollbackCtxFixture, rollbackWorldFixture,
                ⟨[], false, []⟩, 0⟩).1.art.killSwitchRules]) ++
        (executeConnecting rollbackEnvFixture rollbackCfgFixture
          ⟨rollbackCtxFixture, rollbackWorldFixture,
            ⟨[], false, []⟩, 0⟩).1.art.routes.reverse.map
          (fun r => ConnCall.removeRouteCall
            (routeDeleteArgs rollbackEnvFixture.maskOfCidr r))) ++
      [ConnCall.dispatchConnectingFailure
        (if (⟨errorKindRoutingFailed, "Не удалось добавить маршрут bad-cidr",
            "add route failed"⟩ : ScenErr).kind = ""
          then errorKindProcessFailed
          else (⟨errorKindRoutingFailed, "Не удалось добавить маршрут bad-cidr",
            "add route failed"⟩ : ScenErr).kind)
        (if (⟨errorKindRoutingFailed, "Не удалось добавить маршрут bad-cidr",
            "add route failed"⟩ : ScenErr).message = ""
          then defaultConnectFailMessage
          else (⟨errorKindRoutingFailed, "Не удалось добавить маршрут bad-cidr",
            "add route failed"⟩ : ScenErr).message)] :=
  claim_C1_rollback_restores rollbackEnvFixture rollbackCfgFixture rollbackCtxFixture
    rollbackWorldFixture
    ⟨errorKindRoutingFailed, "Не удалось добавить маршрут bad-cidr", "add route failed"⟩
    rfl (by decide) (by decide) (by decide) (by decide) (fun _ => rfl) rfl rfl
